import Mathlib

/-!
# physlock: lock lifecycle, kernel guard and authentication loop

A shallow embedding of `src/main.c` and `src/vt.c`.  The C globals become
fields of explicit records that are passed through the functions; every
call into the kernel or into a helper whose body is outside the two source
files takes its outcome from an explicit environment record, so that the
theorems quantify over every outcome.
-/

namespace Physlock

/-! ## Authentication loop, failure branch (`main.c` lines 165-169) -/

/-- The two `userinfo_t` objects `u` can point to (`&user`, `&root`). -/
inductive Ident where
  | user
  | root
  deriving DecidableEq, Repr

/-- The loop variables `u` and `try` of `main`. -/
structure Trial where
  u : Ident
  try_ : Int
  deriving DecidableEq, Repr

/-- Values at loop entry: `u = &user`, `try = 0` (`main.c` lines 87-88). -/
def Trial.init : Trial := ⟨Ident.user, 0⟩

/-- Body of `if (!user_only && (u == &root || ++try == 3))`:
`u = u == &root ? &user : &root; try = 0;`. -/
def switchIdent (t : Trial) : Trial :=
  { u := if t.u = Ident.root then Ident.user else Ident.root, try_ := 0 }

/-- The identity-switch statement executed after a failed attempt
(`main.c` lines 166-169).  `&&` and `||` short-circuit, so `++try` is
evaluated only when `user_only` is 0 and `u` is not `&root`. -/
def authFailure (user_only : Bool) (t : Trial) : Trial :=
  if !user_only then
    if t.u = Ident.root then switchIdent t
    else
      let t1 : Trial := { t with try_ := t.try_ + 1 }
      if t1.try_ = 3 then switchIdent t1 else t1
  else t

/-- The state after `n` consecutive failed attempts. -/
def failures (user_only : Bool) : Nat → Trial → Trial
  | 0, t => t
  | n + 1, t => authFailure user_only (failures user_only n t)

/-! ## `prompt` (`main.c` lines 69-84) -/

/-- One byte as `fgetc` returns it (an `unsigned char` value). -/
abbrev Byte := Fin 256

/-- The size of `static char buf[1024]`, i.e. `sizeof(buf)`. -/
def BUF_SIZE : Nat := 1024

/-- What is still to be read from a `FILE *`: the bytes that `fgetc` will
deliver, and whether the `EOF` that follows them is a read error
(`ferror` true) or a plain end of file. -/
structure Input where
  bytes : List Byte
  failed : Bool
  deriving DecidableEq, Repr

/-- How a function of the program ends: it returns a value, it terminates
the process through `exit`, or it performs an access C leaves undefined. -/
inductive Outcome (α : Type) where
  | ok (a : α)
  | exit (code : Nat)
  | undefined
  deriving DecidableEq, Repr

/-- The value of `EXIT_FAILURE`. -/
def EXIT_FAILURE : Nat := 1

/-- The store `buf[i] = c`; an index outside the array is undefined. -/
def store (buf : List Byte) (i : Nat) (c : Byte) : Option (List Byte) :=
  if i < buf.length then some (buf.set i c) else none

/-- The loop `while ((c = fgetc(stream)) != EOF && c != '\n')` with its
body `if (c != '\0' && i + 1 < sizeof(buf)) buf[i++] = (char) c;`.
Returns the unread rest of the stream, whether the loop stopped on `EOF`,
the final `i` and the buffer; `none` is an out-of-bounds store. -/
def promptLoop : List Byte → Nat → List Byte → Option (List Byte × Bool × Nat × List Byte)
  | [], i, buf => some ([], true, i, buf)
  | c :: rest, i, buf =>
    if c = 10 then some (rest, false, i, buf)
    else if c ≠ 0 ∧ i + 1 < BUF_SIZE then
      match store buf i c with
      | some buf1 => promptLoop rest (i + 1) buf1
      | none => none
    else promptLoop rest i buf

/-- The function `prompt` after the format string has been printed: the
read loop, the `ferror` check and `buf[i] = '\0'`. -/
def prompt (inp : Input) (buf : List Byte) : Outcome (Input × List Byte) :=
  match promptLoop inp.bytes 0 buf with
  | none => Outcome.undefined
  | some (rest, atEof, i, buf1) =>
    if atEof && inp.failed then Outcome.exit EXIT_FAILURE
    else
      match store buf1 i 0 with
      | some buf2 => Outcome.ok ({ bytes := rest, failed := inp.failed }, buf2)
      | none => Outcome.undefined

/-- The bytes before the first newline (or the end of input). -/
def firstLine (bs : List Byte) : List Byte := bs.takeWhile (fun c => c ≠ 10)

/-- The non-NUL bytes before the first newline. -/
def lineChars (bs : List Byte) : List Byte := (firstLine bs).filter (fun c => c ≠ 0)

/-- What is left of the stream once the first line and its newline have
been consumed. -/
def afterLine (bs : List Byte) : List Byte := (bs.dropWhile (fun c => c ≠ 10)).tail

/-! ## Process state, kernel outcomes and the trace of calls -/

/-- The two kernel feature files (`SYSRQ_PATH`, `PRINTK_PATH` of `config.h`). -/
inductive Path where
  | SYSRQ_PATH
  | PRINTK_PATH
  deriving DecidableEq, Repr

/-- The `ioctl` requests the program issues on the console device. -/
inductive Req where
  | VT_GETSTATE
  | VT_LOCKSWITCH
  | VT_UNLOCKSWITCH
  | VT_OPENQRY
  | VT_ACTIVATE
  | VT_WAITACTIVE
  | VT_DISALLOCATE
  deriving DecidableEq, Repr

/-- An open `FILE *`; `fileno` is the descriptor behind it. -/
structure Stream where
  fileno : Nat
  deriving DecidableEq, Repr

/-- The record `vt_t` as the two files use it: `nr`, `fd`, `ios`,
`term.c_lflag` and `rlflag`. -/
structure Vt where
  nr : Int
  fd : Int
  ios : Option Stream
  c_lflag : Nat
  rlflag : Nat
  deriving DecidableEq, Repr

/-- The explicit lock state: the globals of `main.c` (`buf`, `oldvt`, `vt`,
`oldsysrq`, `oldprintk`), the statics of `vt.c` (`fd`, and the terminal
number printed into `filename`), the contents of the two kernel feature
files, and the switch lock of the console driver. -/
structure LockState where
  buf : List Byte
  oldvt : Int
  vt : Vt
  oldsysrq : Int
  oldprintk : Int
  fd : Int
  filename : Option Int
  sysrq_file : Int
  printk_file : Int
  switch_locked : Bool
  deriving DecidableEq, Repr

/-- The functions `atexit` can be given. -/
inductive Handler where
  | cleanup
  deriving DecidableEq, Repr

/-- One call that leaves the process, in the order the calls are made. -/
inductive Action where
  | read_int_from_file (p : Path)
  | write_int_to_file (p : Path) (v : Int)
  | ioctl (fd : Int) (r : Req) (arg : Int)
  | error (eval : Nat)
  | open_console
  | close (fd : Int)
  | fopen (nr : Int)
  | freopen (nr : Option Int)
  | fclose (ios : Stream)
  | clear_screen (ios : Stream)
  | tcgetattr (fd : Int)
  | tcsetattr (fd : Int) (c_lflag : Nat)
  | tcflush (fd : Int)
  | print_prompt (u : Ident)
  | print_failed
  | syslog_failure
  | sleep
  | openlog
  | closelog
  | memset_buf
  deriving DecidableEq, Repr

/-- The process as the functions see it: the lock state, the handlers
registered with `atexit`, whether `sa_handler_exit` is installed for
SIGTERM and SIGQUIT, and the trace of calls made so far. -/
structure World where
  st : LockState
  handlers : List Handler
  sig_exit : Bool
  trace : List Action
  deriving DecidableEq, Repr

/-- Outcome of the reads and writes of the kernel feature files. -/
structure Files where
  read_ok : Path → Bool
  write_ok : Path → Bool

/-- Outcome of the kernel calls of one operation.  `ioctl_ok r` is the
result of request `r` on an open console descriptor (`false` is a return
of -1 with `errno` other than `EINTR`); `eintr` is the number of times
`VT_WAITACTIVE` is interrupted before that result; `openqry` is the number
`VT_OPENQRY` stores; `fopen` and `freopen` are the streams the two calls
return (`none` is `NULL`); `c_lflag` is what `tcgetattr` reads. -/
structure Kernel where
  ioctl_ok : Req → Bool
  eintr : Nat
  openqry : Int
  fopen : Option Stream
  freopen : Option Stream
  c_lflag : Nat

/-- Result of running a function on a `World`. -/
inductive Res (α : Type) where
  | ok (a : α) (w : World)
  | exit (code : Nat) (w : World)
  | undefined
  deriving DecidableEq, Repr

/-- Functions of the program: they read and update the `World`, and
either return, call `exit`, or are undefined. -/
def M (α : Type) : Type := World → Res α

/-- Sequencing of two statements. -/
def M.bind {α β : Type} (m : M α) (f : α → M β) : M β := fun w =>
  match m w with
  | Res.ok a w1 => f a w1
  | Res.exit c w1 => Res.exit c w1
  | Res.undefined => Res.undefined

instance : Monad M where
  pure a := fun w => Res.ok a w
  bind := M.bind

/-- Read the lock state. -/
def getState : M LockState := fun w => Res.ok w.st w

/-- Update the lock state. -/
def modifyState (f : LockState → LockState) : M Unit := fun w =>
  Res.ok () { w with st := f w.st }

/-- Record a call in the trace. -/
def act (a : Action) : M Unit := fun w =>
  Res.ok () { w with trace := w.trace ++ [a] }

/-- The library function `exit`, up to the point where the registered
handlers start to run. -/
def exit {α : Type} (code : Nat) : M α := fun w => Res.exit code w

/-- An access that C leaves undefined (a `NULL` stream handed to stdio). -/
def undefinedBehaviour {α : Type} : M α := fun _ => Res.undefined

/-- Modelled from the spec: `error` of `util.c`, which is not among the source
files. It logs its message and terminates the process with status `eval`
when `eval` is not 0 ("fatal"); with `eval` 0 it returns ("logged, not
fatal"). -/
def error (eval : Nat) : M Unit := do
  act (Action.error eval)
  if eval ≠ 0 then exit eval else pure ()

/-- Contents of a kernel feature file. -/
def LockState.file (s : LockState) : Path → Int
  | Path.SYSRQ_PATH => s.sysrq_file
  | Path.PRINTK_PATH => s.printk_file

/-- Replace the contents of a kernel feature file. -/
def LockState.setFile (s : LockState) : Path → Int → LockState
  | Path.SYSRQ_PATH, v => { s with sysrq_file := v }
  | Path.PRINTK_PATH, v => { s with printk_file := v }

/-- Modelled from the spec: `read_int_from_file` of `util.c`, which is not among
the source files. A successful read returns the integer the file holds; a
failed read returns -1, the value `main` uses for "unset". -/
def read_int_from_file (f : Files) (p : Path) : M Int := do
  act (Action.read_int_from_file p)
  let s ← getState
  if f.read_ok p then pure (s.file p) else pure (-1)

/-- Modelled from the spec: `write_int_to_file` of `util.c`, which is not among
the source files. A successful write replaces the contents of the file and
returns 0; a failed write leaves the file as it is and returns -1. -/
def write_int_to_file (f : Files) (p : Path) (v : Int) : M Int := do
  act (Action.write_int_to_file p v)
  if f.write_ok p then
    modifyState (fun s => s.setFile p v)
    pure 0
  else pure (-1)

/-! ## `vt.c` -/

/-- One `ioctl(fd, r, arg)` on the console descriptor `fd` of `vt.c`.
On a descriptor that is not open (`fd < 0`) the call fails. -/
def ioctl (k : Kernel) (r : Req) (arg : Int) : M Bool := do
  let s ← getState
  act (Action.ioctl s.fd r arg)
  pure (decide (0 ≤ s.fd) && k.ioctl_ok r)

/-- The loop `while ((ret = ioctl(fd, VT_WAITACTIVE, nr)) == -1 && errno == EINTR);`
with `n` interruptions still to come. -/
def waitActiveLoop (k : Kernel) (nr : Int) : Nat → M Bool
  | 0 => ioctl k Req.VT_WAITACTIVE nr
  | n + 1 => do
    let s ← getState
    if 0 ≤ s.fd then
      act (Action.ioctl s.fd Req.VT_WAITACTIVE nr)
      waitActiveLoop k nr n
    else ioctl k Req.VT_WAITACTIVE nr

/-- The function `vt_init`; `console` is what `open(CONSOLE_DEVICE, O_RDWR)`
returns. -/
def vt_init (console : Int) : M Unit := do
  act Action.open_console
  modifyState (fun s => { s with fd := console })
  if console < 0 then error EXIT_FAILURE else pure ()

/-- The function `vt_destroy`. -/
def vt_destroy : M Unit := do
  let s ← getState
  if 0 ≤ s.fd then
    act (Action.close s.fd)
    modifyState (fun s => { s with fd := -1 })
  else pure ()

/-- The function `get_current_vt(&oldvt)`; `v_active` is the active
terminal the kernel reports. -/
def get_current_vt (k : Kernel) (v_active : Int) : M Unit := do
  let ok ← ioctl k Req.VT_GETSTATE 0
  if !ok then error EXIT_FAILURE
  else modifyState (fun s => { s with oldvt := v_active })

/-- The function `lock_vt_switch`. -/
def lock_vt_switch (k : Kernel) (set : Int) : M Int := do
  if set ≠ 0 then
    let ok ← ioctl k Req.VT_LOCKSWITCH 1
    if !ok then
      error 0
      pure (-1)
    else
      modifyState (fun s => { s with switch_locked := true })
      pure 0
  else
    let ok ← ioctl k Req.VT_UNLOCKSWITCH 1
    if !ok then
      error 0
      pure (-1)
    else
      modifyState (fun s => { s with switch_locked := false })
      pure 0

/-- The function `acquire_new_vt(&vt)`. -/
def acquire_new_vt (k : Kernel) : M Unit := do
  modifyState (fun s => { s with vt := { s.vt with nr := -1, ios := none, fd := -1 } })
  let ok ← ioctl k Req.VT_OPENQRY 0
  if !ok then error EXIT_FAILURE
  else modifyState (fun s => { s with vt := { s.vt with nr := k.openqry } })
  modifyState (fun s => { s with filename := some s.vt.nr })
  let s ← getState
  act (Action.fopen s.vt.nr)
  modifyState (fun s => { s with vt := { s.vt with ios := k.fopen } })
  match k.fopen with
  | none => error EXIT_FAILURE
  | some ios =>
    modifyState (fun s => { s with vt := { s.vt with fd := ios.fileno } })
  let ok ← ioctl k Req.VT_ACTIVATE s.vt.nr
  if !ok then error EXIT_FAILURE else pure ()
  let ret ← waitActiveLoop k s.vt.nr k.eintr
  if !ret then error EXIT_FAILURE else pure ()
  let s ← getState
  act (Action.tcgetattr s.vt.fd)
  modifyState (fun s => { s with vt := { s.vt with c_lflag := k.c_lflag, rlflag := k.c_lflag } })

/-- The function `reopen_vt(&vt)`; `freopen` on a `NULL` stream is
undefined. -/
def reopen_vt (k : Kernel) : M Unit := do
  modifyState (fun s => { s with vt := { s.vt with fd := -1 } })
  let s ← getState
  match s.vt.ios with
  | none => undefinedBehaviour
  | some _ =>
    act (Action.freopen s.filename)
    modifyState (fun s => { s with vt := { s.vt with ios := k.freopen } })
    match k.freopen with
    | none => error EXIT_FAILURE
    | some ios =>
      modifyState (fun s => { s with vt := { s.vt with fd := ios.fileno } })

/-- The function `release_vt(&vt, nr)`. -/
def release_vt (k : Kernel) (nr : Int) : M Int := do
  let ok ← ioctl k Req.VT_ACTIVATE nr
  if !ok then
    error 0
    pure (-1)
  else
    let ret ← waitActiveLoop k nr k.eintr
    if !ret then
      error 0
      pure (-1)
    else
      let s ← getState
      match s.vt.ios with
      | some ios =>
        act (Action.fclose ios)
        modifyState (fun s => { s with vt := { s.vt with ios := none, fd := -1 } })
      | none => pure ()
      let s ← getState
      if s.vt.nr > 0 then
        let ok ← ioctl k Req.VT_DISALLOCATE s.vt.nr
        if !ok then
          error 0
          pure (-1)
        else
          modifyState (fun s => { s with vt := { s.vt with nr := -1 } })
          pure 0
      else pure 0

/-- The bits `ECHO | ISIG` of `c_lflag`. -/
def ECHO_ISIG : Nat := 8 ||| 1

/-- The function `secure_vt(&vt)`: `vt->term.c_lflag &= ~(ECHO | ISIG)` on a
32-bit `tcflag_t`. -/
def secure_vt : M Unit := do
  modifyState (fun s =>
    { s with vt := { s.vt with c_lflag := s.vt.c_lflag &&& (4294967295 ^^^ ECHO_ISIG) } })
  let s ← getState
  act (Action.tcsetattr s.vt.fd s.vt.c_lflag)

/-- The function `flush_vt(&vt)`. -/
def flush_vt : M Unit := do
  let s ← getState
  act (Action.tcflush s.vt.fd)

/-- The function `reset_vt(&vt)`; `fprintf` on a `NULL` stream is
undefined. -/
def reset_vt : M Unit := do
  let s ← getState
  match s.vt.ios with
  | none => undefinedBehaviour
  | some ios =>
    act (Action.clear_screen ios)
    modifyState (fun s => { s with vt := { s.vt with c_lflag := s.vt.rlflag } })
    let s ← getState
    act (Action.tcsetattr s.vt.fd s.vt.c_lflag)

/-! ## `main.c`: `cleanup` -/

/-- The function `cleanup`. -/
def cleanup (f : Files) (k : Kernel) : M Unit := do
  let s ← getState
  if s.oldsysrq > 0 then
    let _ ← write_int_to_file f Path.SYSRQ_PATH s.oldsysrq
    pure ()
  else pure ()
  let s ← getState
  if s.oldprintk > 1 then
    let _ ← write_int_to_file f Path.PRINTK_PATH s.oldprintk
    pure ()
  else pure ()
  let s ← getState
  if s.vt.fd ≥ 0 then reset_vt else pure ()
  let _ ← lock_vt_switch k 0
  let s ← getState
  let _ ← release_vt k s.oldvt
  vt_destroy
  act Action.closelog
  act Action.memset_buf
  modifyState (fun s => { s with buf := List.replicate BUF_SIZE 0 })

/-! ## The effect of `release_vt` and `cleanup` as functions of the state -/

/-- The lock state `release_vt` leaves, as a function of the state it starts from. -/
def releaseSt (k : Kernel) (s : LockState) : LockState :=
  if (decide (0 ≤ s.fd) && k.ioctl_ok Req.VT_ACTIVATE
      && k.ioctl_ok Req.VT_WAITACTIVE) = false then s
  else
    let v1 : Vt := if s.vt.ios.isSome then { s.vt with ios := none, fd := -1 } else s.vt
    let v2 : Vt := if 0 < v1.nr ∧ k.ioctl_ok Req.VT_DISALLOCATE = true then { v1 with nr := -1 } else v1
    { s with vt := v2 }

/-- The value `release_vt` returns. -/
def releaseRet (k : Kernel) (s : LockState) : Int :=
  if (decide (0 ≤ s.fd) && k.ioctl_ok Req.VT_ACTIVATE
      && k.ioctl_ok Req.VT_WAITACTIVE) = false then -1
  else if 0 < s.vt.nr ∧ k.ioctl_ok Req.VT_DISALLOCATE = false then -1 else 0

/-- The calls `release_vt` makes. -/
def releaseTr (k : Kernel) (nr : Int) (s : LockState) : List Action :=
  if (decide (0 ≤ s.fd) && k.ioctl_ok Req.VT_ACTIVATE) = false then
    [Action.ioctl s.fd Req.VT_ACTIVATE nr, Action.error 0]
  else
    Action.ioctl s.fd Req.VT_ACTIVATE nr ::
      List.replicate (k.eintr + 1) (Action.ioctl s.fd Req.VT_WAITACTIVE nr) ++
    (if k.ioctl_ok Req.VT_WAITACTIVE = false then [Action.error 0]
     else
      (match s.vt.ios with
        | some ios => [Action.fclose ios]
        | none => []) ++
      (if 0 < s.vt.nr then
        Action.ioctl s.fd Req.VT_DISALLOCATE s.vt.nr ::
          (if k.ioctl_ok Req.VT_DISALLOCATE = false then [Action.error 0] else [])
       else []))

/-- The lock state after `write_int_to_file(p, v)`. -/
def writeSt (f : Files) (p : Path) (v : Int) (s : LockState) : LockState :=
  if f.write_ok p then s.setFile p v else s

/-- The lock state after the two restoring writes of `cleanup`. -/
def restoreSt (f : Files) (s : LockState) : LockState :=
  let s1 := if s.oldsysrq > 0 then writeSt f Path.SYSRQ_PATH s.oldsysrq s else s
  if s1.oldprintk > 1 then writeSt f Path.PRINTK_PATH s1.oldprintk s1 else s1

/-- The lock state after `if (vt.fd >= 0) reset_vt(&vt);`. -/
def resetSt (s : LockState) : LockState :=
  if 0 ≤ s.vt.fd then { s with vt := { s.vt with c_lflag := s.vt.rlflag } } else s

/-- The lock state after `lock_vt_switch(0)`. -/
def unlockSt (k : Kernel) (s : LockState) : LockState :=
  if (decide (0 ≤ s.fd) && k.ioctl_ok Req.VT_UNLOCKSWITCH) = true then
    { s with switch_locked := false }
  else s

/-- The lock state after `vt_destroy()`. -/
def destroySt (s : LockState) : LockState :=
  if 0 ≤ s.fd then { s with fd := -1 } else s

/-- The lock state `cleanup` leaves. -/
def cleanupSt (f : Files) (k : Kernel) (s : LockState) : LockState :=
  { destroySt (releaseSt k (unlockSt k (resetSt (restoreSt f s)))) with
    buf := List.replicate BUF_SIZE 0 }

/-- The calls of the two restoring writes of `cleanup`. -/
def restoreTr (s : LockState) : List Action :=
  (if s.oldsysrq > 0 then [Action.write_int_to_file Path.SYSRQ_PATH s.oldsysrq] else []) ++
  (if s.oldprintk > 1 then [Action.write_int_to_file Path.PRINTK_PATH s.oldprintk] else [])

/-- The calls of `if (vt.fd >= 0) reset_vt(&vt);` on a state whose stream is open. -/
def resetTr (s : LockState) : List Action :=
  if 0 ≤ s.vt.fd then
    match s.vt.ios with
    | some ios => [Action.clear_screen ios, Action.tcsetattr s.vt.fd s.vt.rlflag]
    | none => []
  else []

/-- The calls of `lock_vt_switch(0)`. -/
def unlockTr (k : Kernel) (s : LockState) : List Action :=
  Action.ioctl s.fd Req.VT_UNLOCKSWITCH 1 ::
    (if (decide (0 ≤ s.fd) && k.ioctl_ok Req.VT_UNLOCKSWITCH) = true then [] else [Action.error 0])

/-- The calls of `vt_destroy()`. -/
def destroyTr (s : LockState) : List Action :=
  if 0 ≤ s.fd then [Action.close s.fd] else []

/-- The calls `cleanup` makes, in order. -/
def cleanupTr (f : Files) (k : Kernel) (s : LockState) : List Action :=
  let s1 := restoreSt f s
  let s2 := resetSt s1
  let s3 := unlockSt k s2
  let s4 := releaseSt k s3
  restoreTr s ++ resetTr s1 ++ unlockTr k s2 ++ releaseTr k s3.oldvt s3 ++ destroyTr s4 ++
    [Action.closelog, Action.memset_buf]

/-- The states on which `cleanup` is defined: a descriptor in `vt.fd` comes
with the stream it was taken from. -/
def SessionOpen (s : LockState) : Prop := 0 ≤ s.vt.fd → s.vt.ios.isSome = true

instance (s : LockState) : Decidable (SessionOpen s) := by
  unfold SessionOpen; infer_instance

/-! ## `main.c`: `main` as a machine over its statements -/

/-- The fields of `options` that `main` reads. -/
structure Options where
  lock_switch : Int
  disable_sysrq : Bool
  mute_kernel_messages : Bool
  detach : Bool
  deriving DecidableEq, Repr

/-- The locals of `main`: `u` and `try`, `unauth`, `user_only`. -/
structure Locals where
  t : Trial
  unauth : Int
  user_only : Bool
  deriving DecidableEq, Repr

/-- The initialisers of line 87-88: `try = 0, unauth = 1, user_only = 1`,
`u = &user`. -/
def Locals.init : Locals := { t := Trial.init, unauth := 1, user_only := true }

/-- Everything outside the process that one statement of `main` can
observe: the outcome of file and kernel calls, the effective uid, whether
`sigaction` succeeds, the descriptor `open(CONSOLE_DEVICE)` returns, the
active terminal, the results of the two credential probes
`authenticate(&user, "")` and `authenticate(&root, "")`, whether the two
names are equal, the result of `fork`, what the terminal delivers to the
next `prompt`, and the verdict of `authenticate(u, buf)`. -/
structure Env where
  files : Files
  kernel : Kernel
  euid : Nat
  sigaction_ok : Bool
  console : Int
  v_active : Int
  probe_user : Int
  same_name : Bool
  probe_root : Int
  chpid : Int
  input : Input
  auth : Ident → List Byte → Int

/-- The points of `main` between which a signal can be delivered, named
after the statement that runs next, and the ways the process can have
ended. -/
inductive Pc where
  | start
  | signals
  | logging
  | vt_init
  | current_vt
  | lock_switch
  | users
  | sysrq
  | printk
  | acquire
  | lock
  | atexit
  | detach
  | secure
  | loop
  | done (code : Nat)
  | killed
  | crashed
  deriving DecidableEq, Repr

/-- What a statement of `main` does next: go on at a point, or `return`. -/
inductive Next where
  | goto (pc : Pc)
  | ret (code : Nat)
  deriving DecidableEq, Repr

/-- The function `setup_signal`: `sigaction`, and `error(0, ...)` when it
fails. `install` is the change of disposition. -/
def setup_signal (ok : Bool) (install : World → World) : M Unit := fun w =>
  if ok then Res.ok () (install w) else error 0 w

/-- Lines 90-96: the globals are set to "unset", the options are parsed,
and the effective uid is checked. -/
def main_start (e : Env) : M Unit := do
  modifyState (fun s =>
    { s with oldvt := -1, oldsysrq := -1, oldprintk := -1,
             vt := { s.vt with nr := -1, fd := -1, ios := none } })
  if e.euid ≠ 0 then error EXIT_FAILURE else pure ()

/-- Lines 98-103: `sa_handler_exit` for SIGTERM and SIGQUIT, `SIG_IGN` for
SIGHUP, SIGINT, SIGUSR1 and SIGUSR2. -/
def main_signals (e : Env) : M Unit := do
  setup_signal e.sigaction_ok (fun w => { w with sig_exit := true })
  setup_signal e.sigaction_ok (fun w => { w with sig_exit := true })
  setup_signal e.sigaction_ok id
  setup_signal e.sigaction_ok id
  setup_signal e.sigaction_ok id
  setup_signal e.sigaction_ok id

/-- Lines 105-108: `close(0); close(1); openlog(...)`. -/
def main_logging : M Unit := do
  act (Action.close 0)
  act (Action.close 1)
  act Action.openlog

/-- Lines 113-118: the mode that only sets or clears the switch lock. -/
def main_lock_switch (o : Options) (e : Env) : M Next := do
  if o.lock_switch ≠ -1 then
    let r ← lock_vt_switch e.kernel o.lock_switch
    if r = -1 then exit EXIT_FAILURE
    else
      vt_destroy
      pure (Next.ret 0)
  else pure (Next.goto Pc.users)

/-- Lines 120-125: the two credential probes; returns `user_only`. -/
def main_users (e : Env) (l : Locals) : M Locals := do
  if e.probe_user = -1 then error EXIT_FAILURE else pure ()
  if !e.same_name && e.probe_root ≠ -1 then pure { l with user_only := false }
  else pure l

/-- Lines 127-132: the hot-key feature is read and, when on, switched off. -/
def main_sysrq (o : Options) (f : Files) : M Unit := do
  if o.disable_sysrq then
    let v ← read_int_from_file f Path.SYSRQ_PATH
    modifyState (fun s => { s with oldsysrq := v })
    let s ← getState
    if s.oldsysrq > 0 then
      let r ← write_int_to_file f Path.SYSRQ_PATH 0
      if r = -1 then exit EXIT_FAILURE else pure ()
    else pure ()
  else pure ()

/-- Lines 134-139: the kernel log level is read and, when above 1, set to 1. -/
def main_printk (o : Options) (f : Files) : M Unit := do
  if o.mute_kernel_messages then
    let v ← read_int_from_file f Path.PRINTK_PATH
    modifyState (fun s => { s with oldprintk := v })
    let s ← getState
    if s.oldprintk > 1 then
      let r ← write_int_to_file f Path.PRINTK_PATH 1
      if r = -1 then exit EXIT_FAILURE else pure ()
    else pure ()
  else pure ()

/-- Line 142: `lock_vt_switch(1);`, the result is not looked at. -/
def main_lock (e : Env) : M Unit := do
  let _ ← lock_vt_switch e.kernel 1
  pure ()

/-- Line 144: `atexit(cleanup);`. -/
def main_atexit : M Unit := fun w =>
  Res.ok () { w with handlers := Handler.cleanup :: w.handlers }

/-- Lines 146-157: the optional `fork`; the parent returns 0, the child
sleeps and reopens the terminal. -/
def main_detach (o : Options) (e : Env) : M Next := do
  if o.detach then
    if e.chpid < 0 then
      error EXIT_FAILURE
      pure (Next.goto Pc.secure)
    else if e.chpid > 0 then pure (Next.ret 0)
    else
      act Action.sleep
      reopen_vt e.kernel
      pure (Next.goto Pc.secure)
  else pure (Next.goto Pc.secure)

/-- The call `prompt(vt.ios, "%s's password: ", u->name)` on the world:
the prompt is printed on `vt.ios` and the line is read into `buf`. -/
def main_prompt (e : Env) (u : Ident) : M Unit := do
  let s ← getState
  match s.vt.ios with
  | none => undefinedBehaviour
  | some _ =>
    act (Action.print_prompt u)
    match prompt e.input s.buf with
    | Outcome.ok (_, buf1) => modifyState (fun s => { s with buf := buf1 })
    | Outcome.exit _ => error EXIT_FAILURE
    | Outcome.undefined => undefinedBehaviour

/-- Lines 160-174: the test of `while (unauth)` and one run of the body. -/
def main_loop (e : Env) (l : Locals) : M (Locals × Next) := do
  if l.unauth ≠ 0 then
    flush_vt
    main_prompt e l.t.u
    let s ← getState
    let unauth := e.auth l.t.u s.buf
    act Action.memset_buf
    modifyState (fun s => { s with buf := List.replicate BUF_SIZE 0 })
    if unauth ≠ 0 then
      let t1 := authFailure l.user_only l.t
      act Action.print_failed
      act Action.syslog_failure
      act Action.sleep
      pure ({ l with t := t1, unauth := unauth }, Next.goto Pc.loop)
    else pure ({ l with unauth := unauth }, Next.goto Pc.loop)
  else pure (l, Next.ret 0)

/-- The statement of `main` that runs at `pc`. -/
def mainSegment (o : Options) (e : Env) (l : Locals) : Pc → M (Locals × Next)
  | Pc.start => do main_start e; pure (l, Next.goto Pc.signals)
  | Pc.signals => do main_signals e; pure (l, Next.goto Pc.logging)
  | Pc.logging => do main_logging; pure (l, Next.goto Pc.vt_init)
  | Pc.vt_init => do vt_init e.console; pure (l, Next.goto Pc.current_vt)
  | Pc.current_vt => do
    get_current_vt e.kernel e.v_active
    pure (l, Next.goto Pc.lock_switch)
  | Pc.lock_switch => do let n ← main_lock_switch o e; pure (l, n)
  | Pc.users => do let l1 ← main_users e l; pure (l1, Next.goto Pc.sysrq)
  | Pc.sysrq => do main_sysrq o e.files; pure (l, Next.goto Pc.printk)
  | Pc.printk => do main_printk o e.files; pure (l, Next.goto Pc.acquire)
  | Pc.acquire => do acquire_new_vt e.kernel; pure (l, Next.goto Pc.lock)
  | Pc.lock => do main_lock e; pure (l, Next.goto Pc.atexit)
  | Pc.atexit => do main_atexit; pure (l, Next.goto Pc.detach)
  | Pc.detach => do let n ← main_detach o e; pure (l, n)
  | Pc.secure => do secure_vt; pure (l, Next.goto Pc.loop)
  | Pc.loop => main_loop e l
  | Pc.done c => pure (l, Next.goto (Pc.done c))
  | Pc.killed => pure (l, Next.goto Pc.killed)
  | Pc.crashed => pure (l, Next.goto Pc.crashed)

/-- The process: where `main` stands, its locals, and the world. -/
structure Proc where
  pc : Pc
  loc : Locals
  w : World

/-- The process has not ended. -/
def Pc.running : Pc → Bool
  | Pc.done _ => false
  | Pc.killed => false
  | Pc.crashed => false
  | _ => true

/-- The handlers registered with `atexit`, run last registered first. -/
def runHandlers (f : Files) (k : Kernel) : List Handler → World → Option World
  | [], w => some w
  | Handler.cleanup :: hs, w =>
    match cleanup f k w with
    | Res.ok _ w1 => runHandlers f k hs w1
    | Res.exit _ _ => none
    | Res.undefined => none

/-- Process termination through `exit(code)` or a `return` from `main`:
the registered handlers run, then the process is gone. -/
def terminate (e : Env) (code : Nat) (p : Proc) (w : World) : Proc :=
  match runHandlers e.files e.kernel w.handlers w with
  | some w1 => { p with pc := Pc.done code, w := w1 }
  | none => { p with pc := Pc.crashed, w := w }

/-- One statement of `main`. -/
def step (o : Options) (e : Env) (p : Proc) : Proc :=
  if p.pc.running then
    match mainSegment o e p.loc p.pc p.w with
    | Res.ok (l, Next.goto pc) w => { pc := pc, loc := l, w := w }
    | Res.ok (l, Next.ret code) w => terminate e code { p with loc := l } w
    | Res.exit code w => terminate e code p w
    | Res.undefined => { p with pc := Pc.crashed }
  else p

/-- The function `sa_handler_exit`: `exit(0)`. -/
def sa_handler_exit (e : Env) (p : Proc) : Proc := terminate e 0 p p.w

/-- Delivery of SIGTERM or SIGQUIT to a running process: the installed
handler runs, or, when none is installed, the process is killed. -/
def deliver (e : Env) (p : Proc) : Proc :=
  if p.pc.running then
    if p.w.sig_exit then sa_handler_exit e p else { p with pc := Pc.killed }
  else p

/-- The static storage of the two files before `main` runs: everything
zero, `fd = -1` in `vt.c`; the kernel feature files hold `sysrq` and
`printk`. -/
def LockState.boot (sysrq printk : Int) : LockState :=
  { buf := List.replicate BUF_SIZE 0, oldvt := 0,
    vt := { nr := 0, fd := 0, ios := none, c_lflag := 0, rlflag := 0 },
    oldsysrq := 0, oldprintk := 0, fd := -1, filename := none,
    sysrq_file := sysrq, printk_file := printk, switch_locked := false }

/-- The process at the entry of `main`. -/
def Proc.boot (sysrq printk : Int) : Proc :=
  { pc := Pc.start, loc := Locals.init,
    w := { st := LockState.boot sysrq printk, handlers := [], sig_exit := false, trace := [] } }

/-- The states `main` can be in: the entry state, and every state one
statement further, whatever the environment answers. -/
inductive Reach (o : Options) : Proc → Prop where
  | boot (sysrq printk : Int) : Reach o (Proc.boot sysrq printk)
  | step (e : Env) (p : Proc) : Reach o p → Reach o (step o e p)

/-- The process after the statements of `main` have run against the
environments `es`, one statement each. -/
def run (o : Options) (es : List Env) (p : Proc) : Proc :=
  es.foldl (fun q e => step o e q) p

/-- The number of times `cleanup` has run: each run calls `closelog` once
and nothing else does. -/
def cleanupRuns (w : World) : Nat := w.trace.count Action.closelog

/-- The points of `main` after `atexit(cleanup)`. -/
def Pc.registered : Pc → Bool
  | Pc.detach => true
  | Pc.secure => true
  | Pc.loop => true
  | _ => false

/-- What every statement of `main` other than `atexit(cleanup)` leaves as
it is when it returns: the registered handlers, the number of `cleanup`
runs, and the pairing of `vt.fd` with `vt.ios`. -/
def Keeps (w w1 : World) : Prop :=
  w1.handlers = w.handlers ∧ cleanupRuns w1 = cleanupRuns w ∧
    (SessionOpen w.st → SessionOpen w1.st)

/-- A function keeps these whenever it returns. -/
structure Frame {α : Type} (m : M α) : Prop where
  keeps : ∀ w a w1, m w = Res.ok a w1 → Keeps w w1


/-- The world a function leaves, by return or by `exit`. -/
def Res.world {α : Type} : Res α → Option World
  | Res.ok _ w => some w
  | Res.exit _ w => some w
  | Res.undefined => none

/-- The point `main` goes on at after the statement at `pc`, when it goes on. -/
def Pc.succ : Pc → Pc
  | Pc.start => Pc.signals
  | Pc.signals => Pc.logging
  | Pc.logging => Pc.vt_init
  | Pc.vt_init => Pc.current_vt
  | Pc.current_vt => Pc.lock_switch
  | Pc.lock_switch => Pc.users
  | Pc.users => Pc.sysrq
  | Pc.sysrq => Pc.printk
  | Pc.printk => Pc.acquire
  | Pc.acquire => Pc.lock
  | Pc.lock => Pc.atexit
  | Pc.atexit => Pc.detach
  | Pc.detach => Pc.secure
  | Pc.secure => Pc.loop
  | Pc.loop => Pc.loop
  | Pc.done c => Pc.done c
  | Pc.killed => Pc.killed
  | Pc.crashed => Pc.crashed

/-- Every value a function returns satisfies `P`. -/
structure Returns {α : Type} (m : M α) (P : α → Prop) : Prop where
  out : ∀ w a w1, m w = Res.ok a w1 → P a

/-- A statement of `main` goes on at `pc` or returns from `main`. -/
def GoesTo (pc : Pc) (n : Next) : Prop := n = Next.goto pc ∨ ∃ c, n = Next.ret c

/-- The invariant of `main` while it runs: `cleanup` is the one registered
handler from `atexit(cleanup)` on and no handler is registered before,
`cleanup` has not run, and, once line 90 has run, a descriptor in `vt.fd`
comes with its stream. -/
def Inv (p : Proc) : Prop :=
  p.pc.running = true →
    p.w.handlers = (if p.pc.registered then [Handler.cleanup] else []) ∧
    cleanupRuns p.w = 0 ∧ (p.pc ≠ Pc.start → SessionOpen p.w.st)

/-- The value a function returns, if it returns. -/
def Res.value {α : Type} : Res α → Option α
  | Res.ok a _ => some a
  | _ => none

/-- A kernel in which every call succeeds at once; the free terminal is
number 7 and its stream has descriptor 4. -/
def kernelOk : Kernel :=
  { ioctl_ok := fun _ => true, eintr := 0, openqry := 7, fopen := some ⟨4⟩,
    freopen := some ⟨4⟩, c_lflag := 11 }

/-- Kernel feature files that can be read and written. -/
def filesOk : Files := { read_ok := fun _ => true, write_ok := fun _ => true }

/-- An environment in which every call succeeds: root runs the program,
the console opens as descriptor 3, terminal 1 is active, both credential
probes succeed for two different names, and the password typed is wrong. -/
def envOk : Env :=
  { files := filesOk, kernel := kernelOk, euid := 0, sigaction_ok := true, console := 3,
    v_active := 1, probe_user := 0, same_name := false, probe_root := 0, chpid := 0,
    input := { bytes := [120, 10], failed := false }, auth := fun _ _ => 1 }

/-- The environment `envOk` with a kernel that refuses `VT_LOCKSWITCH`. -/
def envNoLock : Env :=
  { envOk with kernel := { kernelOk with ioctl_ok := fun r => decide (r ≠ Req.VT_LOCKSWITCH) } }

/-- The options of a plain lock with both kernel features to be disabled. -/
def optionsGuard : Options :=
  { lock_switch := -1, disable_sysrq := true, mute_kernel_messages := true, detach := false }

/-- The process after lines 90-139 with `optionsGuard` on a machine whose
hot-key file holds 1 and whose log level is 7: both features are written to
their disabling values, the new terminal is not acquired yet. -/
def procGuarded : Proc := run optionsGuard (List.replicate 9 envOk) (Proc.boot 1 7)

/-- The process of `procGuarded` three statements later: the terminal is
acquired, the switch lock is on and `atexit(cleanup)` has run. -/
def procRegistered : Proc := run optionsGuard (List.replicate 12 envOk) (Proc.boot 1 7)

/-- The values written to the kernel feature file `p`, in order. -/
def writesTo (p : Path) (t : List Action) : List Int :=
  t.filterMap (fun a =>
    match a with
    | Action.write_int_to_file q v => if q = p then some v else none
    | _ => none)

/-- The value at or below which a feature is left alone: `oldsysrq > 0`,
`oldprintk > 1`. -/
def threshold : Path → Int
  | Path.SYSRQ_PATH => 0
  | Path.PRINTK_PATH => 1

/-- The value `main` writes to switch a feature off. -/
def disabling : Path → Int
  | Path.SYSRQ_PATH => 0
  | Path.PRINTK_PATH => 1

/-- The option that asks for a feature to be switched off. -/
def Options.guards (o : Options) : Path → Bool
  | Path.SYSRQ_PATH => o.disable_sysrq
  | Path.PRINTK_PATH => o.mute_kernel_messages

/-- The global that remembers the value read for a feature. -/
def LockState.old (s : LockState) : Path → Int
  | Path.SYSRQ_PATH => s.oldsysrq
  | Path.PRINTK_PATH => s.oldprintk

/-- Lines 127-139 of `main`: the two guarded features, one after the other. -/
def main_guard (o : Options) (f : Files) : M Unit := do
  main_sysrq o f
  main_printk o f

/-- The setup read of feature `p` found a value above the threshold: the
option is on, the read succeeded, and the file held more than the
threshold. -/
def readAbove (o : Options) (f : Files) (p : Path) (s : LockState) : Bool :=
  o.guards p && f.read_ok p && decide (threshold p < s.file p)

/-- The process of `procGuarded` two statements earlier, before line 127. -/
def procBeforeGuard : Proc := run optionsGuard (List.replicate 7 envOk) (Proc.boot 1 7)

/-- The calls a function has made when it ends. -/
def Res.trace {α : Type} : Res α → List Action
  | Res.ok _ w => w.trace
  | Res.exit _ w => w.trace
  | Res.undefined => []

/-- A fully set up lock state: both features were disabled at setup (the
hot-key file held 1, the log level was 7), terminal 7 is acquired on
stream 4, the console is descriptor 3, terminal 1 was active before. -/
def stateLocked : LockState :=
  { buf := List.replicate BUF_SIZE 0, oldvt := 1,
    vt := { nr := 7, fd := 4, ios := some ⟨4⟩, c_lflag := 2, rlflag := 11 },
    oldsysrq := 1, oldprintk := 7, fd := 3, filename := some 7,
    sysrq_file := 0, printk_file := 1, switch_locked := true }

/-- The world of `stateLocked` with `cleanup` registered and no call made yet. -/
def worldLocked : World :=
  { st := stateLocked, handlers := [Handler.cleanup], sig_exit := true, trace := [] }

/-- The switch back to the target terminal succeeds: the console is open
and both `VT_ACTIVATE` and `VT_WAITACTIVE` succeed. -/
def switchBackOk (k : Kernel) (s : LockState) : Bool :=
  decide (0 ≤ s.fd) && k.ioctl_ok Req.VT_ACTIVATE && k.ioctl_ok Req.VT_WAITACTIVE

/-- A kernel that refuses `VT_ACTIVATE` and grants everything else. -/
def kernelNoActivate : Kernel :=
  { kernelOk with ioctl_ok := fun r => decide (r ≠ Req.VT_ACTIVATE) }

/-- A kernel that refuses `VT_DISALLOCATE` and grants everything else. -/
def kernelNoDisallocate : Kernel :=
  { kernelOk with ioctl_ok := fun r => decide (r ≠ Req.VT_DISALLOCATE) }

/-- The call is a step of `release_vt` that comes after the switch back:
closing the stream or deallocating the terminal. -/
def Action.afterSwitchBack : Action → Bool
  | Action.fclose _ => true
  | Action.ioctl _ Req.VT_DISALLOCATE _ => true
  | _ => false

/-- The claim about the session: the allocated number (`vt.nr > 0`, the
test `release_vt` makes) and the handle (`vt.ios`, `vt.fd`) are both set
or both "none". -/
def SessionPaired (v : Vt) : Prop :=
  (0 < v.nr ∧ v.ios.isSome = true ∧ 0 ≤ v.fd) ∨ (¬ 0 < v.nr ∧ v.ios = none ∧ ¬ 0 ≤ v.fd)

instance (v : Vt) : Decidable (SessionPaired v) := by
  unfold SessionPaired; infer_instance

/-- What the code keeps: the stream and its descriptor are set together,
and a session that holds a stream has its allocated number set. -/
def SessionHeld (v : Vt) : Prop :=
  (v.ios.isSome = true → 0 < v.nr) ∧ (v.ios.isSome = true ↔ 0 ≤ v.fd)

instance (v : Vt) : Decidable (SessionHeld v) := by
  unfold SessionHeld; infer_instance

/-- The worlds reachable through `acquire_new_vt`, `reopen_vt` and
`release_vt`, each ending by return or by `exit`, from a world whose
session fields are unset as line 90 leaves them, for every outcome of the
kernel calls; `VT_OPENQRY` yields a positive number whenever the device of
that number can be opened. -/
inductive SessionReach : World → Prop where
  | init (w : World) : w.st.vt.nr = -1 → w.st.vt.fd = -1 → w.st.vt.ios = none →
      SessionReach w
  | acquire (k : Kernel) (w w1 : World) : SessionReach w →
      (k.fopen.isSome = true → 0 < k.openqry) →
      (acquire_new_vt k w).world = some w1 → SessionReach w1
  | reopen (k : Kernel) (w w1 : World) : SessionReach w →
      (reopen_vt k w).world = some w1 → SessionReach w1
  | release (k : Kernel) (nr : Int) (w w1 : World) : SessionReach w →
      (release_vt k nr w).world = some w1 → SessionReach w1

/-- A world with the console open as descriptor 3 and no terminal acquired. -/
def worldFresh : World :=
  { worldLocked with
    st := { stateLocked with
      vt := { nr := -1, fd := -1, ios := none, c_lflag := 0, rlflag := 0 } } }

/-- The world after `acquire_new_vt` on `worldFresh` with every call granted. -/
def worldAcquired : World := ((acquire_new_vt kernelOk worldFresh).world).getD worldFresh

/-- The world after `release_vt` on `worldAcquired` with `VT_DISALLOCATE`
refused. -/
def worldHalfReleased : World :=
  ((release_vt kernelNoDisallocate 1 worldAcquired).world).getD worldAcquired


/-! ## Authentication loop (C1, C2) -/

/-- C2. With a superuser path (`user_only = 0`) and `u == &root`, one failed
attempt leaves `u = &user` and `try = 0`, whatever `try` was. -/
theorem root_failure_reverts (n : Int) :
    authFailure false ⟨Ident.root, n⟩ = ⟨Ident.user, 0⟩ := by
  simp [authFailure, switchIdent]

theorem failures_user_only (n : Nat) : failures true n Trial.init = Trial.init := by
  induction n with
  | zero => rfl
  | succ n ih => simp [failures, ih, authFailure]

theorem failures_cycle (n : Nat) :
    failures false n Trial.init =
      if n % 4 = 3 then ⟨Ident.root, 0⟩ else ⟨Ident.user, ((n % 4 : Nat) : Int)⟩ := by
  induction n with
  | zero => rfl
  | succ n ih =>
    rw [failures, ih]
    have h4 : n % 4 < 4 := Nat.mod_lt _ (by decide)
    have hs : (n + 1) % 4 = (n % 4 + 1) % 4 := by omega
    rw [hs]
    interval_cases hm : n % 4 <;> simp [authFailure, switchIdent]

/-- C1. Starting from `u = &user`, `try = 0`: with a superuser path
(`user_only = 0`) the identity after the first and after the second failure
is still the occupant and after the third it is the superuser; at every
later point of the run, a failure under the occupant switches to the
superuser exactly when it brings `try` to 3, and after `n` failures the
superuser is active exactly when `n % 4 = 3`.  Without a superuser path
(`user_only = 1`) the identity is the occupant after every number of
failures. -/
theorem switch_at_third_failure :
    (failures false 1 Trial.init).u = Ident.user ∧
    (failures false 2 Trial.init).u = Ident.user ∧
    (failures false 3 Trial.init).u = Ident.root ∧
    (∀ n, (failures false n Trial.init).u = Ident.user →
      ((failures false (n + 1) Trial.init).u = Ident.root ↔
        (failures false n Trial.init).try_ + 1 = 3)) ∧
    (∀ n, (failures false n Trial.init).u = Ident.root ↔ n % 4 = 3) ∧
    (∀ n, (failures true n Trial.init).u = Ident.user) := by
  refine ⟨by decide, by decide, by decide, ?_, ?_, ?_⟩
  · intro n hu
    rw [failures]
    generalize failures false n Trial.init = t at hu
    obtain ⟨u, t⟩ := t
    simp only at hu
    subst hu
    by_cases h : t + 1 = 3 <;> simp [authFailure, switchIdent, h]
  · intro n
    rw [failures_cycle]
    split <;> simp_all
  · intro n
    rw [failures_user_only]
    rfl

/-- Witness for C1: the second failure leaves `try = 2` under the occupant,
and the third failure switches to the superuser. -/
theorem switch_at_third_failure_witness :
    (failures false 2 Trial.init).u = Ident.user ∧
    ((failures false 3 Trial.init).u = Ident.root ↔
      (failures false 2 Trial.init).try_ + 1 = 3) :=
  ⟨by decide, switch_at_third_failure.2.2.2.1 2 (by decide)⟩

/-! ## `prompt` (C10) -/

theorem store_eq_some {buf : List Byte} {i : Nat} (h : i < buf.length) (c : Byte) :
    store buf i c = some (buf.set i c) := by
  simp [store, h]

theorem take_succ_set {α : Type} (c : α) :
    ∀ (buf : List α) (i : Nat), i < buf.length →
      (buf.set i c).take (i + 1) = buf.take i ++ [c]
  | [], i, h => by simp at h
  | b :: bs, 0, _ => by simp
  | b :: bs, i + 1, h => by
    have h1 : i < bs.length := by simpa using h
    simp [take_succ_set c bs i h1]

theorem promptLoop_spec (bs : List Byte) :
    ∀ (i : Nat) (buf : List Byte), i + 1 ≤ BUF_SIZE → buf.length = BUF_SIZE →
      promptLoop bs i buf =
        some (afterLine bs, !(bs.contains 10),
              i + min (lineChars bs).length (BUF_SIZE - 1 - i),
              buf.take i ++ (lineChars bs).take (BUF_SIZE - 1 - i)
                ++ buf.drop (i + min (lineChars bs).length (BUF_SIZE - 1 - i))) := by
  induction bs with
  | nil =>
    intro i buf _ _
    simp [promptLoop, afterLine, lineChars, firstLine]
  | cons c rest ih =>
    intro i buf hi hlen
    by_cases hc : c = 10
    · subst hc
      simp [promptLoop, afterLine, lineChars, firstLine]
    · have hne : ¬ ((10 : Byte) = c) := fun h => hc h.symm
      have hal : afterLine (c :: rest) = afterLine rest := by
        simp [afterLine, hc]
      have hcont : (c :: rest).contains 10 = rest.contains 10 := by
        simp [hne]
      by_cases hw : c ≠ 0 ∧ i + 1 < BUF_SIZE
      · have hlt : i < buf.length := by omega
        rw [promptLoop, if_neg hc, if_pos hw, store_eq_some hlt]
        simp only
        rw [ih (i + 1) (buf.set i c) (by omega) (by simpa using hlen)]
        have hlc : lineChars (c :: rest) = c :: lineChars rest := by
          simp [lineChars, firstLine, hc, hw.1]
        have hsub : BUF_SIZE - 1 - i = (BUF_SIZE - 1 - (i + 1)) + 1 := by omega
        rw [hlc, hal, hcont, hsub]
        simp only [List.length_cons, List.take_succ_cons, Nat.add_min_add_right]
        rw [take_succ_set c buf i hlt, List.drop_set_of_lt c buf (by omega)]
        simp [Nat.add_assoc, Nat.add_comm 1]
      · rw [promptLoop, if_neg hc, if_neg hw, ih i buf hi hlen, hal, hcont]
        by_cases h0 : c = 0
        · have hlc : lineChars (c :: rest) = lineChars rest := by
            simp [lineChars, firstLine, hc, h0]
          rw [hlc]
        · have hi2 : BUF_SIZE - 1 - i = 0 := by
            have : ¬ (i + 1 < BUF_SIZE) := fun h => hw ⟨h0, h⟩
            omega
          simp [hi2]

theorem store_append (a b : List Byte) (c : Byte) (h : b ≠ []) :
    store (a ++ b) a.length c = some (a ++ c :: b.tail) := by
  cases b with
  | nil => exact absurd rfl h
  | cons x xs => simp [store]

/-- C10. For every input stream and every 1024-byte buffer, `prompt`
performs no out-of-bounds store; it exits only when the stream ends in a
read error before a newline; otherwise it returns having consumed the input
up to and including the first newline, and the buffer then holds the first
`min k 1023` of the `k` non-NUL bytes of the first line, followed by a NUL,
followed by the untouched rest of the buffer. -/
theorem prompt_fills_buffer (inp : Input) (buf : List Byte) (hlen : buf.length = BUF_SIZE) :
    prompt inp buf =
      if !(inp.bytes.contains 10) && inp.failed then Outcome.exit EXIT_FAILURE
      else Outcome.ok
        ({ bytes := afterLine inp.bytes, failed := inp.failed },
         (lineChars inp.bytes).take 1023 ++
           (0 : Byte) :: buf.drop (min (lineChars inp.bytes).length 1023 + 1)) := by
  unfold prompt
  rw [promptLoop_spec inp.bytes 0 buf (by simp [BUF_SIZE]) hlen]
  simp only
  split
  · rfl
  · have hm : min (lineChars inp.bytes).length 1023 < BUF_SIZE := by
      simp only [BUF_SIZE]; omega
    have hlen2 : ((lineChars inp.bytes).take 1023).length = min (lineChars inp.bytes).length 1023 := by
      rw [List.length_take, Nat.min_comm]
    have hne : buf.drop (min (lineChars inp.bytes).length 1023) ≠ [] := by
      intro h
      have := congrArg List.length h
      simp only [List.length_drop, List.length_nil] at this
      omega
    have key := store_append ((lineChars inp.bytes).take 1023)
      (buf.drop (min (lineChars inp.bytes).length 1023)) 0 hne
    rw [hlen2] at key
    simp only [BUF_SIZE, List.take_zero, List.nil_append, Nat.sub_zero, Nat.zero_add,
      Nat.reduceSub, key, List.tail_drop]

/-- Witness for C10: a line with an embedded NUL; the NUL is skipped, the
bytes after the newline stay unread, the rest of the buffer is untouched. -/
theorem prompt_fills_buffer_witness :
    (List.replicate 1024 (7 : Byte)).length = BUF_SIZE ∧
    prompt { bytes := [104, 0, 105, 10, 120], failed := false } (List.replicate 1024 7) =
      Outcome.ok ({ bytes := [120], failed := false },
        104 :: 105 :: 0 :: List.replicate 1021 7) := by
  have h := prompt_fills_buffer { bytes := [104, 0, 105, 10, 120], failed := false }
    (List.replicate 1024 7) (List.length_replicate _ _)
  have hl : lineChars ([104, 0, 105, 10, 120] : List Byte) = [104, 105] := by decide
  have ha : afterLine ([104, 0, 105, 10, 120] : List Byte) = [120] := by decide
  have hc : ([104, 0, 105, 10, 120] : List Byte).contains 10 = true := by decide
  rw [hl, ha, hc, List.drop_replicate] at h
  exact ⟨List.length_replicate _ _, h⟩

/-! ## Running the functions of `vt.c` and `cleanup` -/

@[simp] theorem bind_apply {α β : Type} (m : M α) (f : α → M β) (w : World) :
    (m >>= f) w = M.bind m f w := rfl

@[simp] theorem pure_apply {α : Type} (a : α) (w : World) :
    (pure a : M α) w = Res.ok a w := rfl

theorem ioctl_apply (k : Kernel) (r : Req) (arg : Int) (w : World) :
    ioctl k r arg w =
      Res.ok (decide (0 ≤ w.st.fd) && k.ioctl_ok r)
        { w with trace := w.trace ++ [Action.ioctl w.st.fd r arg] } := by
  simp [ioctl, M.bind, getState, act]

theorem error_zero_apply (w : World) :
    error 0 w = Res.ok () { w with trace := w.trace ++ [Action.error 0] } := by
  simp [error, M.bind, act]

theorem error_fail_apply (w : World) :
    error EXIT_FAILURE w =
      Res.exit EXIT_FAILURE { w with trace := w.trace ++ [Action.error EXIT_FAILURE] } := by
  simp [error, M.bind, act, exit, EXIT_FAILURE]

theorem waitActiveLoop_apply (k : Kernel) (nr : Int) (n : Nat) (w : World) :
    waitActiveLoop k nr n w =
      Res.ok (decide (0 ≤ w.st.fd) && k.ioctl_ok Req.VT_WAITACTIVE)
        { w with trace := w.trace ++
            (List.replicate (if 0 ≤ w.st.fd then n + 1 else 1)
              (Action.ioctl w.st.fd Req.VT_WAITACTIVE nr)) } := by
  induction n generalizing w with
  | zero => simp [waitActiveLoop, ioctl_apply]
  | succ n ih =>
    by_cases h : 0 ≤ w.st.fd
    · simp [waitActiveLoop, M.bind, getState, act, h, ih, List.replicate_succ]
    · simp [waitActiveLoop, M.bind, getState, h, ioctl_apply]

theorem release_vt_apply (k : Kernel) (nr : Int) (w : World) :
    release_vt k nr w =
      Res.ok (releaseRet k w.st)
        { w with st := releaseSt k w.st, trace := w.trace ++ releaseTr k nr w.st } := by
  simp only [release_vt, bind_apply, M.bind, ioctl_apply, pure_apply]
  obtain ⟨s, hs, se, tr⟩ := w
  obtain ⟨buf, oldvt, ⟨vnr, vfd, ios, cl, rl⟩, os, op, fd, fn, sf, pf, sl⟩ := s
  by_cases hfd : 0 ≤ fd <;>
  cases hA : k.ioctl_ok Req.VT_ACTIVATE <;>
  cases hW : k.ioctl_ok Req.VT_WAITACTIVE <;>
  cases hD : k.ioctl_ok Req.VT_DISALLOCATE <;>
  cases ios <;>
  by_cases hn : 0 < vnr <;>
  simp [M.bind, ioctl_apply, waitActiveLoop_apply, error_zero_apply, getState, modifyState, act,
    releaseRet, releaseSt, releaseTr, hfd, hA, hW, hD, hn]

theorem write_int_to_file_apply (f : Files) (p : Path) (v : Int) (w : World) :
    write_int_to_file f p v w =
      Res.ok (if f.write_ok p then 0 else -1)
        { w with st := writeSt f p v w.st,
                 trace := w.trace ++ [Action.write_int_to_file p v] } := by
  cases h : f.write_ok p <;>
  simp [write_int_to_file, M.bind, act, modifyState, writeSt, h]

theorem reset_vt_apply (w : World) (ios : Stream) (h : w.st.vt.ios = some ios) :
    reset_vt w =
      Res.ok ()
        { w with st := { w.st with vt := { w.st.vt with c_lflag := w.st.vt.rlflag } },
                 trace := w.trace ++ [Action.clear_screen ios,
                   Action.tcsetattr w.st.vt.fd w.st.vt.rlflag] } := by
  simp [reset_vt, M.bind, getState, act, modifyState, h]

theorem lock_vt_switch_zero_apply (k : Kernel) (w : World) :
    lock_vt_switch k 0 w =
      Res.ok (if (decide (0 ≤ w.st.fd) && k.ioctl_ok Req.VT_UNLOCKSWITCH) = true then 0 else -1)
        { w with st := unlockSt k w.st, trace := w.trace ++ unlockTr k w.st } := by
  cases h : (decide (0 ≤ w.st.fd) && k.ioctl_ok Req.VT_UNLOCKSWITCH) <;>
  simp [lock_vt_switch, M.bind, ioctl_apply, error_zero_apply, modifyState, unlockSt, unlockTr, h]

theorem vt_destroy_apply (w : World) :
    vt_destroy w =
      Res.ok () { w with st := destroySt w.st, trace := w.trace ++ destroyTr w.st } := by
  by_cases h : 0 ≤ w.st.fd <;>
  simp [vt_destroy, M.bind, getState, act, modifyState, destroySt, destroyTr, h]

theorem writeSt_frame (f : Files) (p : Path) (v : Int) (s : LockState) :
    (writeSt f p v s).oldsysrq = s.oldsysrq ∧ (writeSt f p v s).oldprintk = s.oldprintk ∧
    (writeSt f p v s).vt = s.vt ∧ (writeSt f p v s).fd = s.fd ∧
    (writeSt f p v s).oldvt = s.oldvt ∧ (writeSt f p v s).buf = s.buf ∧
    (writeSt f p v s).switch_locked = s.switch_locked ∧
    (writeSt f p v s).filename = s.filename := by
  unfold writeSt
  split <;> cases p <;> simp [LockState.setFile]

theorem restoreSt_frame (f : Files) (s : LockState) :
    (restoreSt f s).oldsysrq = s.oldsysrq ∧ (restoreSt f s).oldprintk = s.oldprintk ∧
    (restoreSt f s).vt = s.vt ∧ (restoreSt f s).fd = s.fd ∧
    (restoreSt f s).oldvt = s.oldvt ∧ (restoreSt f s).buf = s.buf ∧
    (restoreSt f s).switch_locked = s.switch_locked ∧
    (restoreSt f s).filename = s.filename := by
  have h := writeSt_frame f
  by_cases h1 : s.oldsysrq > 0 <;> by_cases h2 : s.oldprintk > 1 <;>
  simp [restoreSt, h1, h2, h]

theorem cleanup_apply (f : Files) (k : Kernel) (w : World) (hwf : SessionOpen w.st) :
    cleanup f k w =
      Res.ok () { w with st := cleanupSt f k w.st, trace := w.trace ++ cleanupTr f k w.st } := by
  obtain ⟨s, hs, se, tr⟩ := w
  simp only [SessionOpen] at hwf
  have hreset : ∀ w : World, w.st.vt = s.vt → 0 ≤ s.vt.fd →
      reset_vt w = Res.ok ()
        { w with st := resetSt w.st, trace := w.trace ++ resetTr w.st } := by
    intro w hw hfd
    cases hi : s.vt.ios with
    | none => simp [hfd, hi] at hwf
    | some i =>
      rw [← hw] at hi hfd
      simp [hfd, reset_vt_apply w i hi, resetSt, resetTr, hi]
  have hskip : ∀ x : LockState, x.vt = s.vt → ¬ 0 ≤ s.vt.fd →
      resetSt x = x ∧ resetTr x = [] := by
    intro x hx hfd
    rw [← hx] at hfd
    simp [resetSt, resetTr, hfd]
  have hf := writeSt_frame f
  by_cases h1 : s.oldsysrq > 0 <;> by_cases h2 : s.oldprintk > 1 <;>
  by_cases h3 : 0 ≤ s.vt.fd <;>
  simp [cleanup, hskip, M.bind, getState, act, modifyState, write_int_to_file_apply, hreset, hf,
    lock_vt_switch_zero_apply, release_vt_apply, vt_destroy_apply, h1, h2, h3,
    cleanupSt, cleanupTr, restoreSt, restoreTr]

/-! ## `release_vt` stops at the first failing step (C8) -/

/-- C8, refuted as stated. The switch back to the target terminal fails
(`VT_ACTIVATE` is refused): `release_vt` returns -1 at once; the stream of
the session is still open and still in `vt.ios`, `vt.fd` is still set, and
neither `fclose` nor `VT_DISALLOCATE` has been called. -/
theorem release_vt_failed_switch_keeps_handle :
    release_vt kernelNoActivate 1 worldLocked =
      Res.ok (-1) { worldLocked with
        trace := [Action.ioctl 3 Req.VT_ACTIVATE 1, Action.error 0] } ∧
    ¬ ((release_vt kernelNoActivate 1 worldLocked).world.map (fun w => w.st.vt.ios)
        = some none) ∧
    ¬ (Action.ioctl 3 Req.VT_DISALLOCATE 7 ∈ (release_vt kernelNoActivate 1 worldLocked).trace) :=
  ⟨rfl, by decide, by decide⟩

/-- C8, as the code has it. For every outcome of the kernel steps,
`release_vt` returns 0 or -1 and never ends the process.  A failing step
makes it return -1 at once and the steps after it are not attempted: when
the switch back fails (`VT_ACTIVATE` or `VT_WAITACTIVE`), the lock state is
untouched, the stream is neither closed nor cleared and no deallocation is
attempted.  When the switch back succeeds, the stream is closed and
`vt.ios`, `vt.fd` are cleared, and an owned terminal number is
deallocated: with success `vt.nr` becomes -1 and the result is 0, with
failure `vt.nr` stays and the result is -1. -/
theorem release_vt_stops_at_failed_step (k : Kernel) (nr : Int) (w : World) :
    ∃ ret w1 t, release_vt k nr w = Res.ok ret w1 ∧ w1.trace = w.trace ++ t ∧
      (ret = 0 ∨ ret = -1) ∧
      (switchBackOk k w.st = false →
        ret = -1 ∧ w1.st = w.st ∧ ∀ a ∈ t, a.afterSwitchBack = false) ∧
      (switchBackOk k w.st = true →
        w1.st.vt.ios = none ∧
        (∀ ios, w.st.vt.ios = some ios → Action.fclose ios ∈ t ∧ w1.st.vt.fd = -1) ∧
        (0 < w.st.vt.nr →
          Action.ioctl w.st.fd Req.VT_DISALLOCATE w.st.vt.nr ∈ t ∧
          (k.ioctl_ok Req.VT_DISALLOCATE = true → ret = 0 ∧ w1.st.vt.nr = -1) ∧
          (k.ioctl_ok Req.VT_DISALLOCATE = false →
            ret = -1 ∧ w1.st.vt.nr = w.st.vt.nr)) ∧
        (¬ 0 < w.st.vt.nr → ret = 0 ∧ w1.st.vt.nr = w.st.vt.nr)) := by
  refine ⟨_, _, releaseTr k nr w.st, release_vt_apply k nr w, rfl, ?_⟩
  obtain ⟨s, hs, se, tr⟩ := w
  obtain ⟨buf, oldvt, ⟨vnr, vfd, ios, cl, rl⟩, os, op, fd, fn, sf, pf, sl⟩ := s
  by_cases hfd : 0 ≤ fd <;>
  cases hA : k.ioctl_ok Req.VT_ACTIVATE <;>
  cases hW : k.ioctl_ok Req.VT_WAITACTIVE <;>
  cases hD : k.ioctl_ok Req.VT_DISALLOCATE <;>
  cases ios <;>
  by_cases hn : 0 < vnr <;>
  simp [releaseRet, releaseSt, releaseTr, switchBackOk, Action.afterSwitchBack,
    hfd, hA, hW, hD, hn]

/-- Witness for C8: with `VT_DISALLOCATE` refused the stream is closed and
cleared, the deallocation is attempted, `vt.nr` stays 7 and the result is -1. -/
theorem release_vt_stops_at_failed_step_witness :
    switchBackOk kernelNoDisallocate worldLocked.st = true ∧
    ∃ ret w1 t, release_vt kernelNoDisallocate 1 worldLocked = Res.ok ret w1 ∧
      w1.trace = worldLocked.trace ++ t ∧ w1.st.vt.ios = none ∧ w1.st.vt.fd = -1 ∧
      Action.ioctl 3 Req.VT_DISALLOCATE 7 ∈ t ∧ ret = -1 ∧ w1.st.vt.nr = 7 := by
  obtain ⟨ret, w1, t, h1, h2, -, -, h4⟩ :=
    release_vt_stops_at_failed_step kernelNoDisallocate 1 worldLocked
  obtain ⟨h5, h6, h7, -⟩ := h4 rfl
  obtain ⟨h8, -, h9⟩ := h7 (by decide)
  exact ⟨rfl, ret, w1, t, h1, h2, h5, (h6 ⟨4⟩ rfl).2, h8, (h9 rfl).1, (h9 rfl).2⟩

/-! ## `cleanup` twice (C4) -/

theorem restoreSt_eq (f : Files) (s : LockState) :
    restoreSt f s =
      { s with
        sysrq_file := if s.oldsysrq > 0 ∧ f.write_ok Path.SYSRQ_PATH = true then s.oldsysrq
                      else s.sysrq_file,
        printk_file := if s.oldprintk > 1 ∧ f.write_ok Path.PRINTK_PATH = true then s.oldprintk
                       else s.printk_file } := by
  by_cases h1 : s.oldsysrq > 0 <;> by_cases h2 : s.oldprintk > 1 <;>
  cases hs1 : f.write_ok Path.SYSRQ_PATH <;> cases hs2 : f.write_ok Path.PRINTK_PATH <;>
  simp [restoreSt, writeSt, LockState.setFile, h1, h2, hs1, hs2]

theorem resetSt_eq (s : LockState) :
    resetSt s =
      { s with vt := { s.vt with
          c_lflag := if 0 ≤ s.vt.fd then s.vt.rlflag else s.vt.c_lflag } } := by
  by_cases h : 0 ≤ s.vt.fd <;> simp [resetSt, h]

theorem unlockSt_eq (k : Kernel) (s : LockState) :
    unlockSt k s =
      { s with switch_locked :=
          if (decide (0 ≤ s.fd) && k.ioctl_ok Req.VT_UNLOCKSWITCH) = true then false
          else s.switch_locked } := by
  cases h : (decide (0 ≤ s.fd) && k.ioctl_ok Req.VT_UNLOCKSWITCH) <;> simp [unlockSt, h]

theorem destroySt_eq (s : LockState) :
    destroySt s = { s with fd := if 0 ≤ s.fd then -1 else s.fd } := by
  by_cases h : 0 ≤ s.fd <;> simp [destroySt, h]

theorem releaseSt_closed (k : Kernel) (s : LockState) (h : ¬ 0 ≤ s.fd) :
    releaseSt k s = s := by
  simp [releaseSt, h]

theorem unlockSt_closed (k : Kernel) (s : LockState) (h : ¬ 0 ≤ s.fd) :
    unlockSt k s = s := by
  simp [unlockSt, h]

theorem destroySt_closed (s : LockState) (h : ¬ 0 ≤ s.fd) : destroySt s = s := by
  simp [destroySt, h]

theorem releaseSt_frame (k : Kernel) (s : LockState) :
    (releaseSt k s).oldsysrq = s.oldsysrq ∧ (releaseSt k s).oldprintk = s.oldprintk ∧
    (releaseSt k s).fd = s.fd ∧ (releaseSt k s).oldvt = s.oldvt ∧
    (releaseSt k s).buf = s.buf ∧ (releaseSt k s).switch_locked = s.switch_locked ∧
    (releaseSt k s).filename = s.filename ∧ (releaseSt k s).sysrq_file = s.sysrq_file ∧
    (releaseSt k s).printk_file = s.printk_file ∧
    (releaseSt k s).vt.c_lflag = s.vt.c_lflag ∧ (releaseSt k s).vt.rlflag = s.vt.rlflag := by
  unfold releaseSt
  split
  · simp
  · simp only [true_and]
    split <;> split <;> simp

theorem releaseSt_handle (k : Kernel) (s : LockState) :
    ((releaseSt k s).vt.fd = s.vt.fd ∧ (releaseSt k s).vt.ios = s.vt.ios) ∨
    ((releaseSt k s).vt.fd = -1 ∧ (releaseSt k s).vt.ios = none) := by
  obtain ⟨buf, oldvt, ⟨vnr, vfd, ios, cl, rl⟩, os, op, fd, fn, sf, pf, sl⟩ := s
  cases h0 : (decide (0 ≤ fd) && k.ioctl_ok Req.VT_ACTIVATE && k.ioctl_ok Req.VT_WAITACTIVE) <;>
  cases ios <;>
  by_cases hc : (0 < vnr ∧ k.ioctl_ok Req.VT_DISALLOCATE = true) <;>
  simp [releaseSt, h0, hc]

theorem cleanupSt_frame (f : Files) (k : Kernel) (s : LockState) :
    (cleanupSt f k s).oldsysrq = s.oldsysrq ∧ (cleanupSt f k s).oldprintk = s.oldprintk ∧
    (cleanupSt f k s).oldvt = s.oldvt ∧ (cleanupSt f k s).filename = s.filename ∧
    (cleanupSt f k s).buf = List.replicate BUF_SIZE 0 ∧
    (cleanupSt f k s).fd = (if 0 ≤ s.fd then -1 else s.fd) ∧
    (cleanupSt f k s).sysrq_file =
      (if s.oldsysrq > 0 ∧ f.write_ok Path.SYSRQ_PATH = true then s.oldsysrq
       else s.sysrq_file) ∧
    (cleanupSt f k s).printk_file =
      (if s.oldprintk > 1 ∧ f.write_ok Path.PRINTK_PATH = true then s.oldprintk
       else s.printk_file) ∧
    (cleanupSt f k s).vt.rlflag = s.vt.rlflag ∧
    (cleanupSt f k s).vt.c_lflag = (if 0 ≤ s.vt.fd then s.vt.rlflag else s.vt.c_lflag) := by
  simp [cleanupSt, destroySt_eq, releaseSt_frame, unlockSt_eq, resetSt_eq, restoreSt_eq]

theorem cleanupSt_handle (f : Files) (k : Kernel) (s : LockState) :
    ((cleanupSt f k s).vt.fd = s.vt.fd ∧ (cleanupSt f k s).vt.ios = s.vt.ios) ∨
    ((cleanupSt f k s).vt.fd = -1 ∧ (cleanupSt f k s).vt.ios = none) := by
  have h := releaseSt_handle k (unlockSt k (resetSt (restoreSt f s)))
  simpa [cleanupSt, destroySt_eq, unlockSt_eq, resetSt_eq, restoreSt_eq] using h

theorem cleanupSt_closed (f : Files) (k : Kernel) (s : LockState) (h : ¬ 0 ≤ s.fd) :
    cleanupSt f k s = { resetSt (restoreSt f s) with buf := List.replicate BUF_SIZE 0 } := by
  have h1 : ¬ 0 ≤ (resetSt (restoreSt f s)).fd := by
    simpa [resetSt_eq, restoreSt_eq] using h
  simp only [cleanupSt]
  rw [unlockSt_closed k _ h1, releaseSt_closed k _ h1, destroySt_closed _ h1]

theorem cleanupSt_idem (f : Files) (k1 k2 : Kernel) (s : LockState) :
    cleanupSt f k2 (cleanupSt f k1 s) = cleanupSt f k1 s := by
  have hfr := cleanupSt_frame f k1 s
  have hh := cleanupSt_handle f k1 s
  have hfd : ¬ 0 ≤ (cleanupSt f k1 s).fd := by
    rw [hfr.2.2.2.2.2.1]
    split <;> simp_all
  rw [cleanupSt_closed f k2 _ hfd]
  generalize cleanupSt f k1 s = s1 at *
  obtain ⟨h1, h2, -, -, h5, -, h7, h8, h9, h10⟩ := hfr
  obtain ⟨buf, oldvt, ⟨vnr, vfd, ios, cl, rl⟩, os, op, fd, fn, sf, pf, sl⟩ := s1
  simp only at h1 h2 h5 h7 h8 h9 h10 hh
  subst h1 h2 h5 h9
  simp only [resetSt_eq, restoreSt_eq, LockState.mk.injEq, Vt.mk.injEq, true_and, and_true]
  refine ⟨?_, ?_, ?_⟩
  · rw [h10]
    rcases hh with ⟨hv, -⟩ | ⟨hv, -⟩
    · rw [hv]; split <;> rfl
    · rw [hv]; simp
  · rw [h7]; split <;> simp_all
  · rw [h8]; split <;> simp_all

theorem cleanupSt_sessionOpen (f : Files) (k : Kernel) (s : LockState) (h : SessionOpen s) :
    SessionOpen (cleanupSt f k s) := by
  unfold SessionOpen at *
  rcases cleanupSt_handle f k s with ⟨h1, h2⟩ | ⟨h1, -⟩
  · rw [h1, h2]; exact h
  · rw [h1]; intro h0; simp at h0

/-- C4. On every lock state on which `cleanup` is defined (a descriptor in
`vt.fd` comes with its stream), fully set up or with any of `vt.nr`,
`vt.fd`, `vt.ios`, the console descriptor, `oldsysrq`, `oldprintk` unset,
`cleanup` returns, a second `cleanup` returns too, and the second run
leaves the lock state exactly as the first one left it.  The kernel calls
of the two runs may end differently (`k1`, `k2`); a write to a kernel
feature file has the same outcome in both runs (`f`). -/
theorem cleanup_idempotent (f : Files) (k1 k2 : Kernel) (w : World)
    (h : SessionOpen w.st) :
    ∃ w1 w2, cleanup f k1 w = Res.ok () w1 ∧ cleanup f k2 w1 = Res.ok () w2 ∧
      w2.st = w1.st := by
  refine ⟨_, _, cleanup_apply f k1 w h, cleanup_apply f k2 _ ?_, ?_⟩
  · exact cleanupSt_sessionOpen f k1 w.st h
  · exact cleanupSt_idem f k1 k2 w.st

/-- Witness for C4: `cleanup` twice on the fully set up state. -/
theorem cleanup_idempotent_witness :
    SessionOpen worldLocked.st ∧
    ∃ w1 w2, cleanup filesOk kernelOk worldLocked = Res.ok () w1 ∧
      cleanup filesOk kernelNoActivate w1 = Res.ok () w2 ∧ w2.st = w1.st :=
  ⟨by decide, cleanup_idempotent filesOk kernelOk kernelNoActivate worldLocked (by decide)⟩

/-! ## The order of the calls of `cleanup` (C7) -/

/-- C7, refuted as stated. On a fully set up lock state with both
features disabled at setup and a kernel that grants every call, the first
call of `cleanup` writes the hot-key value back and the second writes the
kernel-log value back: the kernel-log write is not the first action and
does not come before the hot-key write. -/
theorem cleanup_restores_hotkey_first :
    (cleanup filesOk kernelOk worldLocked).trace =
      [Action.write_int_to_file Path.SYSRQ_PATH 1,
       Action.write_int_to_file Path.PRINTK_PATH 7,
       Action.clear_screen ⟨4⟩, Action.tcsetattr 4 11,
       Action.ioctl 3 Req.VT_UNLOCKSWITCH 1,
       Action.ioctl 3 Req.VT_ACTIVATE 1, Action.ioctl 3 Req.VT_WAITACTIVE 1,
       Action.fclose ⟨4⟩, Action.ioctl 3 Req.VT_DISALLOCATE 7,
       Action.close 3, Action.closelog, Action.memset_buf] ∧
    ¬ ((cleanup filesOk kernelOk worldLocked).trace.head? =
        some (Action.write_int_to_file Path.PRINTK_PATH 7)) ∧
    ¬ ((cleanup filesOk kernelOk worldLocked).trace.indexOf
          (Action.write_int_to_file Path.PRINTK_PATH 7) <
        (cleanup filesOk kernelOk worldLocked).trace.indexOf
          (Action.write_int_to_file Path.SYSRQ_PATH 1)) :=
  ⟨rfl, by decide, by decide⟩

/-- C7, as the code has it. On a fully set up lock state with both
features disabled at setup, `cleanup` returns and its calls are, in this
order: the hot-key value is written back, the kernel-log value is written
back, the secured terminal is reset (screen cleared, mode restored), the
switch lock is disengaged, `release_vt` switches back to the terminal that
was active and then closes the stream and deallocates the secured
terminal, the control device is closed, logging is closed and the password
buffer is zeroed.  The first conjunct holds for every outcome of the kernel
calls, the second spells the calls out for a kernel that grants them all. -/
theorem cleanup_order (f : Files) (k : Kernel) (w : World) (ios : Stream)
    (h1 : 0 < w.st.oldsysrq) (h2 : 1 < w.st.oldprintk) (h3 : 0 ≤ w.st.vt.fd)
    (h4 : w.st.vt.ios = some ios) (h5 : 0 < w.st.vt.nr) (h6 : 0 ≤ w.st.fd) :
    ∃ w1, cleanup f k w = Res.ok () w1 ∧
      w1.trace = w.trace ++
        ([Action.write_int_to_file Path.SYSRQ_PATH w.st.oldsysrq,
          Action.write_int_to_file Path.PRINTK_PATH w.st.oldprintk,
          Action.clear_screen ios, Action.tcsetattr w.st.vt.fd w.st.vt.rlflag] ++
         unlockTr k w.st ++ releaseTr k w.st.oldvt w.st ++
         [Action.close w.st.fd, Action.closelog, Action.memset_buf]) ∧
      ((∀ r, k.ioctl_ok r = true) →
        w1.trace = w.trace ++
          ([Action.write_int_to_file Path.SYSRQ_PATH w.st.oldsysrq,
            Action.write_int_to_file Path.PRINTK_PATH w.st.oldprintk,
            Action.clear_screen ios, Action.tcsetattr w.st.vt.fd w.st.vt.rlflag,
            Action.ioctl w.st.fd Req.VT_UNLOCKSWITCH 1,
            Action.ioctl w.st.fd Req.VT_ACTIVATE w.st.oldvt] ++
           List.replicate (k.eintr + 1) (Action.ioctl w.st.fd Req.VT_WAITACTIVE w.st.oldvt) ++
           [Action.fclose ios, Action.ioctl w.st.fd Req.VT_DISALLOCATE w.st.vt.nr,
            Action.close w.st.fd, Action.closelog, Action.memset_buf])) := by
  have hso : SessionOpen w.st := by
    intro _
    rw [h4]
    rfl
  refine ⟨_, cleanup_apply f k w hso, ?_⟩
  have hgen : cleanupTr f k w.st =
      [Action.write_int_to_file Path.SYSRQ_PATH w.st.oldsysrq,
          Action.write_int_to_file Path.PRINTK_PATH w.st.oldprintk,
          Action.clear_screen ios, Action.tcsetattr w.st.vt.fd w.st.vt.rlflag] ++
         unlockTr k w.st ++ releaseTr k w.st.oldvt w.st ++
         [Action.close w.st.fd, Action.closelog, Action.memset_buf] := by
    simp [cleanupTr, restoreTr, resetTr, unlockTr, releaseTr, destroyTr, restoreSt_eq,
      resetSt_eq, unlockSt_eq, releaseSt_frame, h1, h2, h3, h4, h6]
  refine ⟨by rw [hgen], ?_⟩
  intro hk
  simp only [hgen]
  simp [unlockTr, releaseTr, hk, h4, h5, h6]

/-- Witness for C7: the calls of `cleanup` on the fully set up state. -/
theorem cleanup_order_witness :
    ∃ w1, cleanup filesOk kernelOk worldLocked = Res.ok () w1 ∧
      w1.trace =
        [Action.write_int_to_file Path.SYSRQ_PATH 1,
         Action.write_int_to_file Path.PRINTK_PATH 7,
         Action.clear_screen ⟨4⟩, Action.tcsetattr 4 11,
         Action.ioctl 3 Req.VT_UNLOCKSWITCH 1,
         Action.ioctl 3 Req.VT_ACTIVATE 1, Action.ioctl 3 Req.VT_WAITACTIVE 1,
         Action.fclose ⟨4⟩, Action.ioctl 3 Req.VT_DISALLOCATE 7,
         Action.close 3, Action.closelog, Action.memset_buf] := by
  obtain ⟨w1, h, -, hall⟩ := cleanup_order filesOk kernelOk worldLocked ⟨4⟩
    (by decide) (by decide) (by decide) rfl (by decide) (by decide)
  exact ⟨w1, h, hall (fun _ => rfl)⟩

/-! ## The session fields over `acquire_new_vt`, `reopen_vt`, `release_vt` (C9) -/

theorem acquire_new_vt_summary (k : Kernel) (w : World) :
    ∃ w1, (acquire_new_vt k w).world = some w1 ∧ w1.handlers = w.handlers ∧
      cleanupRuns w1 = cleanupRuns w ∧
      ((w1.st.vt.ios = none ∧ w1.st.vt.fd = -1) ∨
       (∃ ios, k.fopen = some ios ∧ w1.st.vt.ios = some ios ∧
          w1.st.vt.fd = (ios.fileno : Int) ∧ w1.st.vt.nr = k.openqry)) := by
  obtain ⟨s, hs, se, tr⟩ := w
  by_cases hfd : 0 ≤ s.fd <;>
  cases hQ : k.ioctl_ok Req.VT_OPENQRY <;>
  cases hF : k.fopen <;>
  cases hA : k.ioctl_ok Req.VT_ACTIVATE <;>
  cases hW : k.ioctl_ok Req.VT_WAITACTIVE <;>
  simp [acquire_new_vt, M.bind, ioctl_apply, waitActiveLoop_apply, error_fail_apply, getState,
    modifyState, act, Res.world, cleanupRuns, List.count_append, List.count_replicate,
    hfd, hQ, hF, hA, hW]

theorem reopen_vt_summary (k : Kernel) (w : World) (i : Stream) (hi : w.st.vt.ios = some i) :
    ∃ w1, (reopen_vt k w).world = some w1 ∧ w1.handlers = w.handlers ∧
      cleanupRuns w1 = cleanupRuns w ∧ w1.st.vt.nr = w.st.vt.nr ∧
      ((w1.st.vt.ios = none ∧ w1.st.vt.fd = -1) ∨
       (∃ ios, w1.st.vt.ios = some ios ∧ w1.st.vt.fd = (ios.fileno : Int))) := by
  obtain ⟨s, hs, se, tr⟩ := w
  simp only at hi
  cases hF : k.freopen <;>
  simp [reopen_vt, M.bind, error_fail_apply, getState, modifyState, act, Res.world,
    cleanupRuns, List.count_append, hi, hF]

theorem sessionHeld_releaseSt (k : Kernel) (s : LockState) (h : SessionHeld s.vt) :
    SessionHeld (releaseSt k s).vt := by
  obtain ⟨buf, oldvt, ⟨vnr, vfd, ios, cl, rl⟩, os, op, fd, fn, sf, pf, sl⟩ := s
  revert h
  cases h0 : (decide (0 ≤ fd) && k.ioctl_ok Req.VT_ACTIVATE && k.ioctl_ok Req.VT_WAITACTIVE) <;>
  cases ios <;>
  by_cases hc : (0 < vnr ∧ k.ioctl_ok Req.VT_DISALLOCATE = true) <;>
  simp [releaseSt, SessionHeld, h0, hc]

/-- C9, refuted as stated. After `acquire_new_vt` with every call granted
and `release_vt` with `VT_DISALLOCATE` refused, the handle is cleared
(`vt.ios` is `NULL`, `vt.fd` is -1) and the allocated number is still 7. -/
theorem release_vt_clears_handle_keeps_number :
    SessionReach worldHalfReleased ∧
    worldHalfReleased.st.vt.nr = 7 ∧ worldHalfReleased.st.vt.ios = none ∧
    worldHalfReleased.st.vt.fd = -1 ∧ ¬ SessionPaired worldHalfReleased.st.vt :=
  ⟨SessionReach.release kernelNoDisallocate 1 worldAcquired _
      (SessionReach.acquire kernelOk worldFresh _ (SessionReach.init _ rfl rfl rfl)
        (fun _ => by decide) rfl) rfl,
    rfl, rfl, rfl, by decide⟩

/-- C9, as the code has it. In every state reachable through
`acquire_new_vt`, `reopen_vt` and `release_vt`, for every outcome of the
kernel calls, `vt.ios` and `vt.fd` are set together, and a session that
holds a handle has its allocated number set. -/
theorem session_handle_has_number (w : World) (h : SessionReach w) :
    SessionHeld w.st.vt := by
  induction h with
  | init w h1 h2 h3 => simp [SessionHeld, h1, h2, h3]
  | acquire k w w1 _ hk hw _ =>
    obtain ⟨w2, h1, -, -, h4⟩ := acquire_new_vt_summary k w
    rw [hw] at h1
    simp only [Option.some.injEq] at h1
    subst h1
    rcases h4 with ⟨hi, hfd⟩ | ⟨ios, hf, hi, hfd, hnr⟩
    · simp [SessionHeld, hi, hfd]
    · have : 0 < k.openqry := hk (by rw [hf]; rfl)
      simp [SessionHeld, hi, hfd, hnr, this]
  | reopen k w w1 _ hw ih =>
    cases hi : w.st.vt.ios with
    | none =>
      have : reopen_vt k w = Res.undefined := by
        simp [reopen_vt, M.bind, getState, modifyState, hi, undefinedBehaviour]
      rw [this] at hw
      cases hw
    | some i =>
      obtain ⟨w2, h1, -, -, hnr, h4⟩ := reopen_vt_summary k w i hi
      rw [hw] at h1
      simp only [Option.some.injEq] at h1
      subst h1
      have hpos : 0 < w.st.vt.nr := ih.1 (by rw [hi]; rfl)
      rcases h4 with ⟨hi1, hfd⟩ | ⟨ios, hi1, hfd⟩
      · simp [SessionHeld, hi1, hfd]
      · simp [SessionHeld, hi1, hfd, hnr, hpos]
  | release k nr w w1 _ hw ih =>
    rw [release_vt_apply] at hw
    simp only [Res.world, Option.some.injEq] at hw
    subst hw
    exact sessionHeld_releaseSt k w.st ih

/-- Witness for C9: the world after a granted `acquire_new_vt` holds
stream 4 and number 7. -/
theorem session_handle_has_number_witness :
    SessionReach worldAcquired ∧ SessionHeld worldAcquired.st.vt ∧
    worldAcquired.st.vt.ios = some ⟨4⟩ ∧ worldAcquired.st.vt.nr = 7 :=
  have h : SessionReach worldAcquired :=
    SessionReach.acquire kernelOk worldFresh _ (SessionReach.init _ rfl rfl rfl)
      (fun _ => by decide) rfl
  ⟨h, session_handle_has_number worldAcquired h, rfl, rfl⟩

/-! ## What every statement of `main` keeps -/

theorem Keeps.refl (w : World) : Keeps w w := ⟨rfl, rfl, id⟩

theorem Keeps.trans {w w1 w2 : World} (h1 : Keeps w w1) (h2 : Keeps w1 w2) : Keeps w w2 :=
  ⟨h2.1.trans h1.1, h2.2.1.trans h1.2.1, fun h => h2.2.2 (h1.2.2 h)⟩

theorem frame_pure {α : Type} (a : α) : Frame (pure a : M α) := by
  constructor
  intro w b w1 h
  cases h
  exact Keeps.refl w

theorem frame_bind {α β : Type} (m : M α) (f : α → M β) (hm : Frame m)
    (hf : ∀ a, Frame (f a)) : Frame (m >>= f) := by
  constructor
  intro w b w2 h
  simp only [bind_apply, M.bind] at h
  cases hmw : m w with
  | ok a w1 =>
    rw [hmw] at h
    exact (hm.keeps w a w1 hmw).trans ((hf a).keeps w1 b w2 h)
  | exit c w1 => rw [hmw] at h; cases h
  | undefined => rw [hmw] at h; cases h

theorem frame_getState : Frame getState := by
  constructor
  intro w a w1 h
  cases h
  exact Keeps.refl w

theorem frame_exit {α : Type} (c : Nat) : Frame (exit c : M α) := by
  constructor
  intro w a w1 h
  cases h

theorem frame_undefined {α : Type} : Frame (undefinedBehaviour : M α) := by
  constructor
  intro w a w1 h
  cases h

theorem frame_act (a : Action) (ha : a ≠ Action.closelog) : Frame (act a) := by
  constructor
  intro w u w1 h
  cases h
  refine ⟨rfl, ?_, id⟩
  simp [cleanupRuns, List.count_append, List.count_singleton, ha]

theorem frame_modifyState (f : LockState → LockState)
    (hf : ∀ s, SessionOpen s → SessionOpen (f s)) : Frame (modifyState f) := by
  constructor
  intro w u w1 h
  cases h
  exact ⟨rfl, rfl, hf w.st⟩

theorem frame_error (eval : Nat) : Frame (error eval) := by
  unfold error
  apply frame_bind
  · exact frame_act _ (by simp)
  · intro _
    split
    · exact frame_exit _
    · exact frame_pure _

theorem frame_ioctl (k : Kernel) (r : Req) (arg : Int) : Frame (ioctl k r arg) := by
  unfold ioctl
  apply frame_bind _ _ frame_getState
  intro s
  apply frame_bind _ _ (frame_act _ (by simp))
  intro _
  exact frame_pure _

theorem frame_lock_vt_switch (k : Kernel) (set : Int) : Frame (lock_vt_switch k set) := by
  unfold lock_vt_switch
  repeat' first
    | exact frame_pure _
    | exact frame_ioctl _ _ _
    | exact frame_error _
    | exact frame_modifyState _ (fun s h => h)
    | apply frame_bind
    | intro _
    | split

theorem frame_vt_destroy : Frame vt_destroy := by
  unfold vt_destroy
  repeat' first
    | exact frame_pure _
    | exact frame_getState
    | exact frame_act _ (by simp)
    | exact frame_modifyState _ (fun s h => h)
    | apply frame_bind
    | intro _
    | split

theorem frame_read_int_from_file (f : Files) (p : Path) : Frame (read_int_from_file f p) := by
  unfold read_int_from_file
  repeat' first
    | exact frame_pure _
    | exact frame_getState
    | exact frame_act _ (by simp)
    | apply frame_bind
    | intro _
    | split

theorem frame_write_int_to_file (f : Files) (p : Path) (v : Int) :
    Frame (write_int_to_file f p v) := by
  unfold write_int_to_file
  repeat' first
    | exact frame_pure _
    | exact frame_act _ (by simp)
    | exact frame_modifyState _ (fun s h => by cases p <;> exact h)
    | apply frame_bind
    | intro _
    | split

theorem frame_setup_signal (ok : Bool) (install : World → World)
    (h : ∀ w, Keeps w (install w)) : Frame (setup_signal ok install) := by
  constructor
  intro w a w1 hw
  unfold setup_signal at hw
  split at hw
  · cases hw
    exact h w
  · exact (frame_error 0).keeps w a w1 hw

theorem frame_main_start (e : Env) : Frame (main_start e) := by
  unfold main_start
  repeat' first
    | exact frame_pure _
    | exact frame_error _
    | exact frame_modifyState _ (fun s _ h => by simp at h)
    | apply frame_bind
    | intro _
    | split

theorem frame_main_signals (e : Env) : Frame (main_signals e) := by
  unfold main_signals
  repeat' first
    | exact frame_setup_signal _ _ (fun w => ⟨rfl, rfl, id⟩)
    | apply frame_bind
    | intro _

theorem frame_main_logging : Frame main_logging := by
  unfold main_logging
  repeat' first
    | exact frame_act _ (by simp)
    | apply frame_bind
    | intro _

theorem frame_vt_init (c : Int) : Frame (vt_init c) := by
  unfold vt_init
  repeat' first
    | exact frame_pure _
    | exact frame_error _
    | exact frame_act _ (by simp)
    | exact frame_modifyState _ (fun s h => h)
    | apply frame_bind
    | intro _
    | split

theorem frame_get_current_vt (k : Kernel) (v : Int) : Frame (get_current_vt k v) := by
  unfold get_current_vt
  repeat' first
    | exact frame_ioctl _ _ _
    | exact frame_error _
    | exact frame_modifyState _ (fun s h => h)
    | apply frame_bind
    | intro _
    | split

theorem frame_main_lock_switch (o : Options) (e : Env) : Frame (main_lock_switch o e) := by
  unfold main_lock_switch
  repeat' first
    | exact frame_pure _
    | exact frame_exit _
    | exact frame_lock_vt_switch _ _
    | exact frame_vt_destroy
    | apply frame_bind
    | intro _
    | split

theorem frame_main_users (e : Env) (l : Locals) : Frame (main_users e l) := by
  unfold main_users
  repeat' first
    | exact frame_pure _
    | exact frame_error _
    | apply frame_bind
    | intro _
    | split

theorem frame_main_sysrq (o : Options) (f : Files) : Frame (main_sysrq o f) := by
  unfold main_sysrq
  repeat' first
    | exact frame_pure _
    | exact frame_exit _
    | exact frame_getState
    | exact frame_read_int_from_file _ _
    | exact frame_write_int_to_file _ _ _
    | exact frame_modifyState _ (fun s h => h)
    | apply frame_bind
    | intro _
    | split

theorem frame_main_printk (o : Options) (f : Files) : Frame (main_printk o f) := by
  unfold main_printk
  repeat' first
    | exact frame_pure _
    | exact frame_exit _
    | exact frame_getState
    | exact frame_read_int_from_file _ _
    | exact frame_write_int_to_file _ _ _
    | exact frame_modifyState _ (fun s h => h)
    | apply frame_bind
    | intro _
    | split

theorem frame_main_lock (e : Env) : Frame (main_lock e) := by
  unfold main_lock
  repeat' first
    | exact frame_pure _
    | exact frame_lock_vt_switch _ _
    | apply frame_bind
    | intro _

theorem frame_secure_vt : Frame secure_vt := by
  unfold secure_vt
  repeat' first
    | exact frame_getState
    | exact frame_act _ (by simp)
    | exact frame_modifyState _ (fun s h => h)
    | apply frame_bind
    | intro _

theorem frame_flush_vt : Frame flush_vt := by
  unfold flush_vt
  repeat' first
    | exact frame_getState
    | exact frame_act _ (by simp)
    | apply frame_bind
    | intro _

theorem frame_main_prompt (e : Env) (u : Ident) : Frame (main_prompt e u) := by
  unfold main_prompt
  repeat' first
    | exact frame_getState
    | exact frame_undefined
    | exact frame_error _
    | exact frame_act _ (by simp)
    | exact frame_modifyState _ (fun s h => h)
    | apply frame_bind
    | intro _
    | split

theorem frame_main_loop (e : Env) (l : Locals) : Frame (main_loop e l) := by
  unfold main_loop
  repeat' first
    | exact frame_pure _
    | exact frame_getState
    | exact frame_flush_vt
    | exact frame_main_prompt _ _
    | exact frame_act _ (by simp)
    | exact frame_modifyState _ (fun s h => h)
    | apply frame_bind
    | intro _
    | split

theorem frame_of_world {α : Type} (m : M α) (w : World)
    (h : ∃ w1, (m w).world = some w1 ∧ w1.handlers = w.handlers ∧
      cleanupRuns w1 = cleanupRuns w ∧ SessionOpen w1.st) :
    ∀ a w1, m w = Res.ok a w1 → Keeps w w1 := by
  intro a w1 hm
  obtain ⟨w2, h1, h2, h3, h4⟩ := h
  rw [hm] at h1
  simp only [Res.world, Option.some.injEq] at h1
  subst h1
  exact ⟨h2, h3, fun _ => h4⟩

theorem frame_acquire_new_vt (k : Kernel) : Frame (acquire_new_vt k) := by
  constructor
  intro w a w1 hm
  obtain ⟨w2, h1, h2, h3, h4⟩ := acquire_new_vt_summary k w
  refine frame_of_world _ w ⟨w2, h1, h2, h3, ?_⟩ a w1 hm
  unfold SessionOpen
  rcases h4 with ⟨-, hfd⟩ | ⟨ios, -, hios, -, -⟩
  · rw [hfd]; intro h; simp at h
  · rw [hios]; intro _; rfl

theorem frame_reopen_vt (k : Kernel) : Frame (reopen_vt k) := by
  constructor
  intro w a w1 hm
  cases hi : w.st.vt.ios with
  | none =>
    have : reopen_vt k w = Res.undefined := by
      simp [reopen_vt, M.bind, getState, modifyState, hi, undefinedBehaviour]
    rw [this] at hm
    cases hm
  | some i =>
    obtain ⟨w2, h1, h2, h3, -, h4⟩ := reopen_vt_summary k w i hi
    refine frame_of_world _ w ⟨w2, h1, h2, h3, ?_⟩ a w1 hm
    unfold SessionOpen
    rcases h4 with ⟨-, hfd⟩ | ⟨ios, hios, -⟩
    · rw [hfd]; intro h; simp at h
    · rw [hios]; intro _; rfl

theorem frame_main_detach (o : Options) (e : Env) : Frame (main_detach o e) := by
  unfold main_detach
  repeat' first
    | exact frame_pure _
    | exact frame_error _
    | exact frame_reopen_vt _
    | exact frame_act _ (by simp)
    | apply frame_bind
    | intro _
    | split

theorem frame_mainSegment (o : Options) (e : Env) (l : Locals) (pc : Pc)
    (h : pc ≠ Pc.atexit) : Frame (mainSegment o e l pc) := by
  cases pc <;> simp only [mainSegment] <;>
  first
    | exact absurd rfl h
    | exact frame_main_loop _ _
    | exact frame_pure _
    | (apply frame_bind
       · first
         | exact frame_main_start _
         | exact frame_main_signals _
         | exact frame_main_logging
         | exact frame_vt_init _
         | exact frame_get_current_vt _ _
         | exact frame_main_lock_switch _ _
         | exact frame_main_users _ _
         | exact frame_main_sysrq _ _
         | exact frame_main_printk _ _
         | exact frame_acquire_new_vt _
         | exact frame_main_lock _
         | exact frame_main_detach _ _
         | exact frame_secure_vt
       · intro _
         exact frame_pure _)

theorem returns_pure {α : Type} (a : α) (P : α → Prop) (h : P a) :
    Returns (pure a : M α) P := by
  constructor
  intro w b w1 hw
  cases hw
  exact h

theorem returns_exit {α : Type} (c : Nat) (P : α → Prop) : Returns (exit c : M α) P := by
  constructor
  intro w b w1 hw
  cases hw

theorem returns_bind {α β : Type} (m : M α) (f : α → M β) (P : β → Prop)
    (hf : ∀ a, Returns (f a) P) : Returns (m >>= f) P := by
  constructor
  intro w b w2 h
  simp only [bind_apply, M.bind] at h
  cases hmw : m w with
  | ok a w1 => rw [hmw] at h; exact (hf a).out w1 b w2 h
  | exit c w1 => rw [hmw] at h; cases h
  | undefined => rw [hmw] at h; cases h

theorem returns_bind_of {α β : Type} (m : M α) (f : α → M β) (Q : α → Prop) (P : β → Prop)
    (hm : Returns m Q) (hf : ∀ a, Q a → Returns (f a) P) : Returns (m >>= f) P := by
  constructor
  intro w b w2 h
  simp only [bind_apply, M.bind] at h
  cases hmw : m w with
  | ok a w1 => rw [hmw] at h; exact (hf a (hm.out w a w1 hmw)).out w1 b w2 h
  | exit c w1 => rw [hmw] at h; cases h
  | undefined => rw [hmw] at h; cases h

theorem returns_main_lock_switch (o : Options) (e : Env) :
    Returns (main_lock_switch o e) (GoesTo Pc.users) := by
  unfold main_lock_switch
  repeat' first
    | exact returns_pure _ _ (Or.inl rfl)
    | exact returns_pure _ _ (Or.inr ⟨_, rfl⟩)
    | exact returns_exit _ _
    | apply returns_bind
    | intro _
    | split

theorem returns_main_detach (o : Options) (e : Env) :
    Returns (main_detach o e) (GoesTo Pc.secure) := by
  unfold main_detach
  repeat' first
    | exact returns_pure _ _ (Or.inl rfl)
    | exact returns_pure _ _ (Or.inr ⟨_, rfl⟩)
    | exact returns_exit _ _
    | apply returns_bind
    | intro _
    | split

theorem returns_main_loop (e : Env) (l : Locals) :
    Returns (main_loop e l) (fun r => GoesTo Pc.loop r.2) := by
  unfold main_loop
  repeat' first
    | exact returns_pure _ _ (Or.inl rfl)
    | exact returns_pure _ _ (Or.inr ⟨_, rfl⟩)
    | exact returns_exit _ _
    | apply returns_bind
    | intro _
    | split

theorem returns_mainSegment (o : Options) (e : Env) (l : Locals) (pc : Pc) :
    Returns (mainSegment o e l pc) (fun r => GoesTo pc.succ r.2) := by
  cases pc <;> simp only [mainSegment, Pc.succ] <;>
  first
    | exact returns_main_loop _ _
    | exact returns_pure _ _ (Or.inl rfl)
    | exact returns_bind_of _ _ _ _ (returns_main_lock_switch o e)
        (fun n hn => returns_pure _ _ hn)
    | exact returns_bind_of _ _ _ _ (returns_main_detach o e)
        (fun n hn => returns_pure _ _ hn)
    | exact returns_bind _ _ _ (fun _ => returns_pure _ _ (Or.inl rfl))

theorem main_atexit_ok (o : Options) (e : Env) (l l1 : Locals) (n : Next) (w w1 : World)
    (h : mainSegment o e l Pc.atexit w = Res.ok (l1, n) w1) :
    w1.handlers = Handler.cleanup :: w.handlers ∧ cleanupRuns w1 = cleanupRuns w ∧
      w1.st = w.st := by
  simp only [mainSegment, bind_apply, M.bind, main_atexit, pure_apply] at h
  cases h
  exact ⟨rfl, rfl, rfl⟩

theorem main_start_ok (o : Options) (e : Env) (l l1 : Locals) (n : Next) (w w1 : World)
    (h : mainSegment o e l Pc.start w = Res.ok (l1, n) w1) : SessionOpen w1.st := by
  by_cases hu : e.euid = 0 <;>
  simp [mainSegment, M.bind, main_start, modifyState, error_fail_apply, hu] at h
  obtain ⟨-, rfl⟩ := h
  simp [SessionOpen]

theorem inv_boot (sysrq printk : Int) : Inv (Proc.boot sysrq printk) := by
  intro _
  exact ⟨rfl, rfl, fun h => absurd rfl h⟩

theorem terminate_not_running (e : Env) (c : Nat) (p : Proc) (w : World) :
    (terminate e c p w).pc.running = false := by
  unfold terminate
  split <;> rfl

theorem inv_step (o : Options) (e : Env) (p : Proc) (h : Inv p) : Inv (step o e p) := by
  unfold step
  by_cases hrun : p.pc.running = true
  · rw [if_pos hrun]
    obtain ⟨hh, hc, hs⟩ := h hrun
    cases hseg : mainSegment o e p.loc p.pc p.w with
    | undefined => intro h'; simp [Pc.running] at h'
    | exit c w => intro h'; simp [terminate_not_running] at h'
    | ok r w =>
      obtain ⟨l, n⟩ := r
      cases n with
      | ret c => intro h'; simp [terminate_not_running] at h'
      | goto pc =>
        have htgt := (returns_mainSegment o e p.loc p.pc).out _ _ _ hseg
        have hpc : pc = p.pc.succ := by
          rcases htgt with h1 | ⟨c, h1⟩
          · exact Next.goto.inj h1
          · cases h1
        intro _
        simp only
        by_cases hat : p.pc = Pc.atexit
        · rw [hat] at hseg hh hpc
          obtain ⟨h1, h2, h3⟩ := main_atexit_ok o e _ _ _ _ _ hseg
          subst hpc
          refine ⟨?_, by rw [h2, hc], fun _ => by rw [h3]; exact hs (by rw [hat]; simp)⟩
          rw [h1, hh]
          rfl
        · obtain ⟨h1, h2, h3⟩ := (frame_mainSegment o e p.loc p.pc hat).keeps _ _ _ hseg
          have hso : SessionOpen w.st := by
            by_cases hst : p.pc = Pc.start
            · rw [hst] at hseg
              exact main_start_ok o e _ _ _ _ _ hseg
            · exact h3 (hs hst)
          refine ⟨?_, by rw [h2, hc], fun _ => hso⟩
          rw [h1, hh, hpc]
          have : p.pc.succ.registered = p.pc.registered := by
            revert hat hrun
            cases p.pc <;> simp [Pc.succ, Pc.registered, Pc.running]
          rw [this]
  · rw [if_neg hrun]
    exact h

theorem inv_of_reach (o : Options) (p : Proc) (h : Reach o p) : Inv p := by
  induction h with
  | boot sysrq printk => exact inv_boot sysrq printk
  | step e p _ ih => exact inv_step o e p ih

/-! ## Termination signals and the switch lock in `main` (C5, C6) -/

theorem count_closelog_releaseTr (k : Kernel) (nr : Int) (s : LockState) :
    (releaseTr k nr s).count Action.closelog = 0 := by
  unfold releaseTr
  cases s.vt.ios <;>
  (repeat' split) <;>
  simp [List.count_append, List.count_replicate, List.count_cons]

theorem count_closelog_cleanupTr (f : Files) (k : Kernel) (s : LockState) :
    (cleanupTr f k s).count Action.closelog = 1 := by
  have h1 : (restoreTr s).count Action.closelog = 0 := by
    unfold restoreTr
    split <;> split <;> simp [List.count_cons]
  have h2 : ∀ x, (resetTr x).count Action.closelog = 0 := by
    intro x
    unfold resetTr
    split
    · cases x.vt.ios <;> simp [List.count_cons]
    · rfl
  have h3 : ∀ x, (unlockTr k x).count Action.closelog = 0 := by
    intro x
    unfold unlockTr
    split <;> simp [List.count_cons]
  have h4 : ∀ x, (destroyTr x).count Action.closelog = 0 := by
    intro x
    unfold destroyTr
    split <;> simp [List.count_cons]
  simp [cleanupTr, List.count_append, h1, h2, h3, h4, count_closelog_releaseTr, List.count_cons]

theorem reach_run (o : Options) (es : List Env) (p : Proc) (h : Reach o p) :
    Reach o (run o es p) := by
  induction es generalizing p with
  | nil => exact h
  | cons e es ih => exact ih _ (Reach.step e p h)

/-- C5, refuted as stated. With both kernel features already written to
their disabling values (hot-key file 1 -> 0, log level 7 -> 1) and the new
terminal not yet acquired, `main` stands before line 141 with
`sa_handler_exit` installed; a termination signal there ends the process
with status 0 and `cleanup` has run zero times, not once: the two files
keep their disabling values. -/
theorem signal_before_atexit_skips_cleanup :
    Reach optionsGuard procGuarded ∧ procGuarded.pc = Pc.acquire ∧
    procGuarded.w.sig_exit = true ∧
    procGuarded.w.st.sysrq_file = 0 ∧ procGuarded.w.st.printk_file = 1 ∧
    (deliver envOk procGuarded).pc = Pc.done 0 ∧
    cleanupRuns (deliver envOk procGuarded).w = 0 ∧
    ¬ (cleanupRuns (deliver envOk procGuarded).w = 1) ∧
    (deliver envOk procGuarded).w.st.sysrq_file = 0 ∧
    (deliver envOk procGuarded).w.st.printk_file = 1 :=
  ⟨reach_run _ _ _ (Reach.boot 1 7), rfl, rfl, rfl, rfl, rfl, rfl, by decide, rfl, rfl⟩

/-- C5, as the code has it. In every state `main` can be in while it
runs with `sa_handler_exit` installed, delivery of SIGTERM or SIGQUIT ends
the process with status 0; `cleanup` runs exactly once when the signal
arrives after `atexit(cleanup)` (line 144), and does not run when it
arrives before. -/
theorem signal_runs_registered_cleanup (o : Options) (p : Proc) (hr : Reach o p)
    (hrun : p.pc.running = true) (hsig : p.w.sig_exit = true) (e : Env) :
    (deliver e p).pc = Pc.done 0 ∧
      cleanupRuns (deliver e p).w = (if p.pc.registered then 1 else 0) := by
  obtain ⟨hh, hc, hs⟩ := inv_of_reach o p hr hrun
  unfold deliver sa_handler_exit terminate
  rw [if_pos hrun, if_pos hsig, hh]
  by_cases hreg : p.pc.registered = true
  · have hso : SessionOpen p.w.st := hs (by intro h0; rw [h0] at hreg; cases hreg)
    simp only [hreg, if_true, runHandlers, cleanup_apply _ _ _ hso]
    refine ⟨trivial, ?_⟩
    simp only [cleanupRuns] at hc ⊢
    rw [List.count_append, hc, count_closelog_cleanupTr]
  · simp only [hreg, runHandlers]
    exact ⟨trivial, hc⟩

/-- Witness for C5: after `atexit(cleanup)` a termination signal ends the
process with status 0 and `cleanup` has run once. -/
theorem signal_runs_registered_cleanup_witness :
    Reach optionsGuard procRegistered ∧ procRegistered.pc.running = true ∧
    procRegistered.w.sig_exit = true ∧
    ((deliver envOk procRegistered).pc = Pc.done 0 ∧
      cleanupRuns (deliver envOk procRegistered).w =
        (if procRegistered.pc.registered then 1 else 0)) :=
  ⟨reach_run _ _ _ (Reach.boot 1 7), rfl, rfl,
    signal_runs_registered_cleanup optionsGuard procRegistered
      (reach_run _ _ _ (Reach.boot 1 7)) rfl rfl envOk⟩

/-- C6, the code at the failing input. The kernel refuses `VT_LOCKSWITCH`:
at line 142 `lock_vt_switch(1)` returns -1, and four statements later
`main` stands at the head of the authentication loop with the switch lock
not engaged; the process has not ended.  In the lock-only mode (line 114)
the same refusal ends the process with `EXIT_FAILURE`. -/
theorem failed_switch_lock_reaches_loop :
    (run optionsGuard (List.replicate 10 envNoLock) (Proc.boot 1 7)).pc = Pc.lock ∧
    (lock_vt_switch envNoLock.kernel 1
      (run optionsGuard (List.replicate 10 envNoLock) (Proc.boot 1 7)).w).value = some (-1) ∧
    (run optionsGuard (List.replicate 14 envNoLock) (Proc.boot 1 7)).pc = Pc.loop ∧
    (run optionsGuard (List.replicate 14 envNoLock) (Proc.boot 1 7)).w.st.switch_locked = false ∧
    (run { optionsGuard with lock_switch := 1 } (List.replicate 6 envNoLock)
      (Proc.boot 1 7)).pc = Pc.done EXIT_FAILURE :=
  ⟨rfl, rfl, rfl, rfl, rfl⟩

/-! ## The kernel guard (C3) -/

theorem writesTo_append (p : Path) (a b : List Action) :
    writesTo p (a ++ b) = writesTo p a ++ writesTo p b := by
  simp [writesTo, List.filterMap_append]

theorem writesTo_releaseTr (p : Path) (k : Kernel) (nr : Int) (s : LockState) :
    writesTo p (releaseTr k nr s) = [] := by
  unfold releaseTr
  cases s.vt.ios <;>
  (repeat' split) <;>
  simp [writesTo, List.filterMap_append, List.filterMap_cons, List.filterMap_replicate]

theorem writesTo_cleanupTr (p : Path) (f : Files) (k : Kernel) (s : LockState) :
    writesTo p (cleanupTr f k s) =
      if threshold p < s.old p then [s.old p] else [] := by
  have h2 : ∀ x, writesTo p (resetTr x) = [] := by
    intro x
    unfold resetTr
    split
    · cases x.vt.ios <;> simp [writesTo]
    · rfl
  have h3 : ∀ x, writesTo p (unlockTr k x) = [] := by
    intro x
    unfold unlockTr
    split <;> simp [writesTo]
  have h4 : ∀ x, writesTo p (destroyTr x) = [] := by
    intro x
    unfold destroyTr
    split <;> simp [writesTo]
  have h5 : writesTo p [Action.closelog, Action.memset_buf] = [] := by simp [writesTo]
  simp only [cleanupTr, writesTo_append, h2, h3, h4, h5, writesTo_releaseTr, List.append_nil]
  by_cases c1 : 0 < s.oldsysrq <;> by_cases c2 : 1 < s.oldprintk <;> cases p <;>
  simp [restoreTr, writesTo, threshold, LockState.old, c1, c2]

theorem bind_ok_inv {α β : Type} (m : M α) (g : α → M β) (w w2 : World) (b : β)
    (h : (m >>= g) w = Res.ok b w2) :
    ∃ a w1, m w = Res.ok a w1 ∧ g a w1 = Res.ok b w2 := by
  simp only [bind_apply, M.bind] at h
  cases hm : m w with
  | ok a w1 => rw [hm] at h; exact ⟨a, w1, rfl, h⟩
  | exit c w1 => rw [hm] at h; cases h
  | undefined => rw [hm] at h; cases h

theorem bind_exit_inv {α β : Type} (m : M α) (g : α → M β) (w w2 : World) (c : Nat)
    (h : (m >>= g) w = Res.exit c w2) :
    m w = Res.exit c w2 ∨ ∃ a w1, m w = Res.ok a w1 ∧ g a w1 = Res.exit c w2 := by
  simp only [bind_apply, M.bind] at h
  cases hm : m w with
  | ok a w1 => rw [hm] at h; exact Or.inr ⟨a, w1, rfl, h⟩
  | exit c1 w1 =>
    rw [hm] at h
    simp only [Res.exit.injEq] at h
    exact Or.inl (by rw [h.1, h.2])
  | undefined => rw [hm] at h; cases h

theorem main_sysrq_summary (o : Options) (f : Files) (w : World) :
    (∀ w1, main_sysrq o f w = Res.ok () w1 →
      writesTo Path.SYSRQ_PATH w1.trace = writesTo Path.SYSRQ_PATH w.trace ++
        (if (o.disable_sysrq && f.read_ok Path.SYSRQ_PATH && decide (0 < w.st.sysrq_file)) = true
         then [0] else []) ∧
      w1.st.oldsysrq =
        (if o.disable_sysrq = true then
          (if f.read_ok Path.SYSRQ_PATH = true then w.st.sysrq_file else -1)
         else w.st.oldsysrq)) ∧
    (∀ c w1, main_sysrq o f w = Res.exit c w1 →
      c = EXIT_FAILURE ∧
      (o.disable_sysrq && f.read_ok Path.SYSRQ_PATH && decide (0 < w.st.sysrq_file)) = true) ∧
    (∀ r, main_sysrq o f w = r → ∃ w1, r.world = some w1 ∧
      writesTo Path.PRINTK_PATH w1.trace = writesTo Path.PRINTK_PATH w.trace ∧
      w1.st.oldprintk = w.st.oldprintk ∧ w1.st.printk_file = w.st.printk_file ∧
      w1.handlers = w.handlers) := by
  obtain ⟨s, hs, se, tr⟩ := w
  cases hds : o.disable_sysrq <;>
  cases hr1 : f.read_ok Path.SYSRQ_PATH <;>
  cases hw1 : f.write_ok Path.SYSRQ_PATH <;>
  by_cases hv1 : 0 < s.sysrq_file <;>
  simp [main_sysrq, M.bind, read_int_from_file, write_int_to_file,
    getState, modifyState, act, exit, writesTo, LockState.file, LockState.setFile,
    EXIT_FAILURE, Res.world, hds, hr1, hw1, hv1]

theorem main_printk_summary (o : Options) (f : Files) (w : World) :
    (∀ w1, main_printk o f w = Res.ok () w1 →
      writesTo Path.PRINTK_PATH w1.trace = writesTo Path.PRINTK_PATH w.trace ++
        (if (o.mute_kernel_messages && f.read_ok Path.PRINTK_PATH
              && decide (1 < w.st.printk_file)) = true
         then [1] else []) ∧
      w1.st.oldprintk =
        (if o.mute_kernel_messages = true then
          (if f.read_ok Path.PRINTK_PATH = true then w.st.printk_file else -1)
         else w.st.oldprintk)) ∧
    (∀ c w1, main_printk o f w = Res.exit c w1 →
      c = EXIT_FAILURE ∧
      (o.mute_kernel_messages && f.read_ok Path.PRINTK_PATH
        && decide (1 < w.st.printk_file)) = true) ∧
    (∀ r, main_printk o f w = r → ∃ w1, r.world = some w1 ∧
      writesTo Path.SYSRQ_PATH w1.trace = writesTo Path.SYSRQ_PATH w.trace ∧
      w1.st.oldsysrq = w.st.oldsysrq ∧ w1.st.sysrq_file = w.st.sysrq_file ∧
      w1.handlers = w.handlers) := by
  obtain ⟨s, hs, se, tr⟩ := w
  cases hds : o.mute_kernel_messages <;>
  cases hr1 : f.read_ok Path.PRINTK_PATH <;>
  cases hw1 : f.write_ok Path.PRINTK_PATH <;>
  by_cases hv1 : 1 < s.printk_file <;>
  simp [main_printk, M.bind, read_int_from_file, write_int_to_file,
    getState, modifyState, act, exit, writesTo, LockState.file, LockState.setFile,
    EXIT_FAILURE, Res.world, hds, hr1, hw1, hv1]

theorem cleanup_writes (p : Path) (f : Files) (k : Kernel) (w : World)
    (h : SessionOpen w.st) :
    ∃ w1, cleanup f k w = Res.ok () w1 ∧
      writesTo p w1.trace = writesTo p w.trace ++
        (if threshold p < w.st.old p then [w.st.old p] else []) := by
  refine ⟨_, cleanup_apply f k w h, ?_⟩
  simp only [writesTo_append, writesTo_cleanupTr]

/-- C3. Lines 127-139 run on a state in which `oldsysrq` and `oldprintk`
are -1 (line 90), for either feature `p` and every outcome of the reads and
writes.  When the setup completes: it wrote to the path of `p` exactly when
the option was on and the read returned a value above the threshold, and
then it wrote the disabling value; a later `cleanup`, on any state that
still has the remembered value, returns and writes to that path under the
same condition and no other, and the value it writes is the value that was
read.  When the setup exits (a disabling write failed): the status is
`EXIT_FAILURE`, no handler has been registered, and a path whose read was
not above the threshold has not been written. -/
theorem kernel_guard_restores_what_it_read (o : Options) (f : Files) (p : Path) (w : World)
    (h1 : w.st.oldsysrq = -1) (h2 : w.st.oldprintk = -1) :
    (∀ w1, main_guard o f w = Res.ok () w1 →
      writesTo p w1.trace = writesTo p w.trace ++
        (if readAbove o f p w.st = true then [disabling p] else []) ∧
      ∀ (fc : Files) (k : Kernel) (w2 : World),
        w2.st.old p = w1.st.old p → SessionOpen w2.st →
        ∃ w3, cleanup fc k w2 = Res.ok () w3 ∧
          writesTo p w3.trace = writesTo p w2.trace ++
            (if readAbove o f p w.st = true then [w.st.file p] else [])) ∧
    (∀ c w1, main_guard o f w = Res.exit c w1 →
      c = EXIT_FAILURE ∧ w1.handlers = w.handlers ∧
      (readAbove o f p w.st = false → writesTo p w1.trace = writesTo p w.trace)) ∧
    main_guard o f w ≠ Res.undefined := by
  obtain ⟨s_ok, s_exit, s_fr⟩ := main_sysrq_summary o f w
  have hcl : ∀ (v : Int) (fc : Files) (k : Kernel) (w2 : World), w2.st.old p = v →
      SessionOpen w2.st → (decide (threshold p < v) = true → v = w.st.file p) →
      (decide (threshold p < v)) = readAbove o f p w.st →
      ∃ w3, cleanup fc k w2 = Res.ok () w3 ∧
          writesTo p w3.trace = writesTo p w2.trace ++
            (if readAbove o f p w.st = true then [w.st.file p] else []) := by
    intro v fc k w2 hv hso hval hab
    obtain ⟨w3, h3, h4⟩ := cleanup_writes p fc k w2 hso
    refine ⟨w3, h3, ?_⟩
    rw [h4, hv, ← hab]
    by_cases hc : threshold p < v
    · simp [hc, hval (by simpa using hc)]
    · simp [hc]
  refine ⟨?_, ?_, ?_⟩
  · intro w2 hg
    unfold main_guard at hg
    obtain ⟨_, wm, hm, hp⟩ := bind_ok_inv _ _ _ _ _ hg
    obtain ⟨p_ok, -, p_fr⟩ := main_printk_summary o f wm
    obtain ⟨a1, a2⟩ := s_ok wm hm
    obtain ⟨a3, a4⟩ := p_ok w2 hp
    obtain ⟨x, hx, b1, b2, b3, -⟩ := s_fr _ hm
    obtain ⟨y, hy, c1, c2, c3, -⟩ := p_fr _ hp
    simp only [Res.world, Option.some.injEq] at hx hy
    subst hx hy
    cases p with
    | SYSRQ_PATH =>
      refine ⟨by rw [c1, a1]; rfl, ?_⟩
      intro fc k w2 hold hso
      refine hcl _ fc k w2 hold hso ?_ ?_
      · simp only [LockState.old, c2, a2, threshold, LockState.file]
        cases o.disable_sysrq <;> cases f.read_ok Path.SYSRQ_PATH <;> simp [h1]
      · simp only [LockState.old, c2, a2, threshold, LockState.file, readAbove, Options.guards]
        cases o.disable_sysrq <;> cases f.read_ok Path.SYSRQ_PATH <;> simp [h1]
    | PRINTK_PATH =>
      refine ⟨by rw [a3, b1, b3]; rfl, ?_⟩
      intro fc k w2 hold hso
      refine hcl _ fc k w2 hold hso ?_ ?_
      · simp only [LockState.old, a4, b2, b3, threshold, LockState.file]
        cases o.mute_kernel_messages <;> cases f.read_ok Path.PRINTK_PATH <;> simp [h2]
      · simp only [LockState.old, a4, b2, b3, threshold, LockState.file, readAbove,
          Options.guards]
        cases o.mute_kernel_messages <;> cases f.read_ok Path.PRINTK_PATH <;> simp [h2]
  · intro c w2 hg
    unfold main_guard at hg
    rcases bind_exit_inv _ _ _ _ _ hg with hm | ⟨_, wm, hm, hp⟩
    · obtain ⟨e1, e2⟩ := s_exit c w2 hm
      obtain ⟨x, hx, b1, -, -, b4⟩ := s_fr _ hm
      simp only [Res.world, Option.some.injEq] at hx
      subst hx
      refine ⟨e1, b4, ?_⟩
      cases p with
      | SYSRQ_PATH =>
        intro hab
        simp only [readAbove, Options.guards, threshold, LockState.file] at hab
        rw [hab] at e2
        cases e2
      | PRINTK_PATH => intro _; exact b1
    · obtain ⟨-, p_exit, p_fr⟩ := main_printk_summary o f wm
      obtain ⟨a1, -⟩ := s_ok wm hm
      obtain ⟨e1, e2⟩ := p_exit c w2 hp
      obtain ⟨x, hx, b1, -, b3, b4⟩ := s_fr _ hm
      obtain ⟨y, hy, c1, -, -, c4⟩ := p_fr _ hp
      simp only [Res.world, Option.some.injEq] at hx hy
      subst hx hy
      refine ⟨e1, by rw [c4, b4], ?_⟩
      cases p with
      | SYSRQ_PATH =>
        intro hab
        simp only [readAbove, Options.guards, threshold, LockState.file] at hab
        rw [c1, a1, hab]
        simp
      | PRINTK_PATH =>
        intro hab
        simp only [readAbove, Options.guards, threshold, LockState.file] at hab
        rw [b3, hab] at e2
        cases e2
  · intro hu
    unfold main_guard at hu
    simp only [bind_apply, M.bind] at hu
    cases hm : main_sysrq o f w with
    | ok a wm =>
      rw [hm] at hu
      simp only at hu
      obtain ⟨-, -, p_fr⟩ := main_printk_summary o f wm
      obtain ⟨y, hy, -⟩ := p_fr _ hu
      simp [Res.world] at hy
    | exit c wm => rw [hm] at hu; cases hu
    | undefined =>
      obtain ⟨x, hx, -⟩ := s_fr _ hm
      simp [Res.world] at hx

/-- Witness for C3: the hot-key file holds 1; the setup writes 0 and
remembers 1; `cleanup` writes 1. -/
theorem kernel_guard_restores_what_it_read_witness :
    procBeforeGuard.w.st.oldsysrq = -1 ∧ procBeforeGuard.w.st.oldprintk = -1 ∧
    procBeforeGuard.w.st.sysrq_file = 1 ∧
    main_guard optionsGuard filesOk procBeforeGuard.w = Res.ok () procGuarded.w ∧
    writesTo Path.SYSRQ_PATH procGuarded.w.trace = [0] ∧
    ∃ w3, cleanup filesOk kernelOk procRegistered.w = Res.ok () w3 ∧
      writesTo Path.SYSRQ_PATH w3.trace = [0, 1] :=
  have h := (kernel_guard_restores_what_it_read optionsGuard filesOk Path.SYSRQ_PATH
    procBeforeGuard.w rfl rfl).1 procGuarded.w rfl
  ⟨rfl, rfl, rfl, rfl, h.1, h.2 filesOk kernelOk procRegistered.w rfl (by decide)⟩

end Physlock
